import Mathlib

/-!
Verification of the AiClipX job-lifecycle core.

Shallow embedding of the job lifecycle orchestrator of the AiClipX backend:
the status state machine (`backend/services/video_task_service.py`), the
resilience layer (`backend/services/resilience.py`), the Runway engine
adapter (`backend/services/runway.py`), the idempotent-creation guard
(`backend/services/idempotency.py` and the creation route in
`backend/routers/video_tasks.py`), and the cursor pagination codec.

Conventions used throughout:
* Python `Optional[T]` is `Option T`.
* Python `int` is `Int` (timestamps are in seconds since an arbitrary epoch;
  the code only ever compares elapsed-second differences against integer
  thresholds, so nothing is lost by using integral seconds).
* Python truthiness on `Optional[str]` (`if not s:`) is modelled by
  `strTruthy`, which is false for `none` and for `some ""`.
* `datetime.now(timezone.utc)` is passed in explicitly as a `now` argument.
-/

namespace AiClipX

/-- Python truthiness of an `Optional[str]` value: `None` and `""` are falsy. -/
def strTruthy : Option String → Bool
  | none => false
  | some s => s ≠ ""

/-! ## Status state machine (`backend/services/video_task_service.py`)

The service module (and the routers) use a five-valued status enum
`queued / processing / completed / failed / cancelled`; `cancelled` was added
by BE-STG13-008 and is the set of values `ALLOWED_TRANSITIONS` is keyed by. -/

inductive VideoTaskStatus where
  | queued
  | processing
  | completed
  | failed
  | cancelled
deriving DecidableEq, Repr

open VideoTaskStatus

/-- Embeds `ALLOWED_TRANSITIONS` dict from `video_task_service.py` (lines 73-79). -/
def ALLOWED_TRANSITIONS : VideoTaskStatus → List VideoTaskStatus
  | queued => [processing, failed, cancelled]
  | processing => [completed, failed, cancelled]
  | completed => []
  | failed => []
  | cancelled => []

/-- Embeds `VideoTaskService.validate_transition` (lines 336-339). -/
def validate_transition (current_status new_status : VideoTaskStatus) : Bool :=
  new_status ∈ ALLOWED_TRANSITIONS current_status

/-- Embeds `VideoTaskService.validate_status_constraints` (lines 341-396), translated
branch by branch.  `progress` is `Option Int` (`Optional[int]`), `video_url`
and `error_message` are `Option String`.  The Python code tests
`if not video_url:` / `if not error_message:` (truthiness) in the `completed`
and `failed` branches and `is not None` elsewhere. -/
def validate_status_constraints (status : VideoTaskStatus) (progress : Option Int)
    (video_url : Option String) (error_message : Option String) : Option String :=
  match status with
  | queued =>
    if progress ≠ none ∧ progress ≠ some 0 then
      some "progress must be 0 for queued status"
    else if video_url ≠ none then
      some "videoUrl must be null for queued status"
    else if error_message ≠ none then
      some "errorMessage must be null for queued status"
    else none
  | processing =>
    if video_url ≠ none then
      some "videoUrl must be null for processing status"
    else if error_message ≠ none then
      some "errorMessage must be null for processing status"
    else
      match progress with
      | some p =>
        if p ≥ 100 then some "progress must be 0-99 for processing status" else none
      | none => none
  | completed =>
    if progress ≠ some 100 then
      some "progress must be 100 for completed status"
    else if ¬ strTruthy video_url then
      some "videoUrl is required for completed status"
    else if error_message ≠ none then
      some "errorMessage must be null for completed status"
    else none
  | failed =>
    if ¬ strTruthy error_message then
      some "errorMessage is required for failed status"
    else if video_url ≠ none then
      some "videoUrl must be null for failed status"
    else none
  | cancelled =>
    if video_url ≠ none then
      some "videoUrl must be null for cancelled status"
    else if error_message ≠ none then
      some "errorMessage must be null for cancelled status"
    else none

/-- The per-status field constraints exactly as the specification (§4.3)
words them, used to compare `validate_status_constraints` against the spec:
`queued` requires progress 0 and no videoUrl/errorMessage; `processing`
requires progress in [0,99] and no videoUrl/errorMessage; `completed`
requires progress 100, a videoUrl, and no errorMessage; `failed` requires an
errorMessage, no videoUrl, progress unconstrained; `cancelled` forbids
videoUrl and errorMessage. -/
def specStatusConstraints (status : VideoTaskStatus) (progress : Option Int)
    (video_url : Option String) (error_message : Option String) : Prop :=
  match status with
  | queued => progress = some 0 ∧ video_url = none ∧ error_message = none
  | processing =>
      (∃ p, progress = some p ∧ 0 ≤ p ∧ p ≤ 99) ∧
      video_url = none ∧ error_message = none
  | completed =>
      progress = some 100 ∧ (∃ u, video_url = some u) ∧ error_message = none
  | failed => (∃ m, error_message = some m) ∧ video_url = none
  | cancelled => video_url = none ∧ error_message = none

/-- What `validate_status_constraints` actually accepts: the spec constraints
with the deviations the code exhibits (progress may be omitted for
`queued`/`processing`; `processing` has no lower bound on progress;
`completed` needs a non-empty videoUrl; `failed` needs a non-empty
errorMessage). -/
def codeStatusConstraints (status : VideoTaskStatus) (progress : Option Int)
    (video_url : Option String) (error_message : Option String) : Prop :=
  match status with
  | queued =>
      (progress = none ∨ progress = some 0) ∧ video_url = none ∧ error_message = none
  | processing =>
      (progress = none ∨ ∃ p, progress = some p ∧ p ≤ 99) ∧
      video_url = none ∧ error_message = none
  | completed =>
      progress = some 100 ∧ (∃ u, video_url = some u ∧ u ≠ "") ∧ error_message = none
  | failed => (∃ m, error_message = some m ∧ m ≠ "") ∧ video_url = none
  | cancelled => video_url = none ∧ error_message = none

/-! ## Retry policy (`backend/services/resilience.py`) -/

/-- The exception classes distinguished by `RetryPolicy.is_retryable`:
`httpx.RequestError`, `httpx.TimeoutException` (network/timeout errors), or
any other exception. -/
inductive PyException where
  | requestError
  | timeoutException
  | otherException
deriving DecidableEq, Repr

/-- Embeds `isinstance(error, (httpx.RequestError, httpx.TimeoutException))`. -/
def isNetworkError : PyException → Bool
  | .requestError => true
  | .timeoutException => true
  | .otherException => false

def MAX_ATTEMPTS : Nat := 4

/-- Embeds `RetryPolicy.RETRYABLE_STATUS_CODES = {429, 500, 502, 503, 504}`. -/
def RETRYABLE_STATUS_CODES : List Int := [429, 500, 502, 503, 504]

/-- Embeds `RetryPolicy.is_retryable` (resilience.py lines 85-100). -/
def is_retryable (error : Option PyException) (status_code : Option Int) : Bool :=
  match error with
  | some e =>
    if isNetworkError e then true
    else
      match status_code with
      | some c => c ∈ RETRYABLE_STATUS_CODES
      | none => false
  | none =>
    match status_code with
    | some c => c ∈ RETRYABLE_STATUS_CODES
    | none => false

/-- Embeds `RetryPolicy.get_delay` (seconds): 0, 1, 2, 4 for attempts 1..4. -/
def get_delay (attempt : Nat) : Nat :=
  if attempt ≤ 1 then 0 else 2 ^ (attempt - 2)

/-- Embeds `RetryPolicy.should_retry`. -/
def should_retry (attempt : Nat) : Bool :=
  attempt < MAX_ATTEMPTS

/-! ## Circuit breaker (`backend/services/resilience.py`, lines 128-253)

Timestamps are integral seconds; `datetime.now(timezone.utc)` becomes an
explicit `now` argument, and every method that reads the clock or mutates
the breaker returns the updated breaker alongside its result. -/

inductive CircuitState where
  | CLOSED
  | OPEN
  | HALF_OPEN
deriving DecidableEq, Repr

def FAILURE_THRESHOLD : Nat := 5

def COOLDOWN_SECONDS : Int := 60

def WINDOW_SECONDS : Int := 60

structure CircuitBreaker where
  state : CircuitState
  failure_count : Nat
  last_failure_time : Option Int
  opened_at : Option Int
deriving DecidableEq, Repr

/-- Embeds `CircuitBreaker.__init__`: CLOSED, zero failures, no timestamps. -/
def CircuitBreaker.init : CircuitBreaker := ⟨.CLOSED, 0, none, none⟩

/-- Embeds `CircuitBreaker._get_state_locked` (lines 164-171): lazily transitions
OPEN → HALF_OPEN once the cooldown has elapsed since `opened_at`, returning
the (possibly updated) state.  This *mutates* `self._state`. -/
def _get_state_locked (cb : CircuitBreaker) (now : Int) : CircuitState × CircuitBreaker :=
  match cb.state, cb.opened_at with
  | .OPEN, some t =>
    if now - t ≥ COOLDOWN_SECONDS then (.HALF_OPEN, { cb with state := .HALF_OPEN })
    else (.OPEN, cb)
  | s, _ => (s, cb)

/-- Embeds `CircuitBreaker.can_attempt` (lines 177-184): true in CLOSED and
HALF_OPEN (reading the state may itself perform the lazy cooldown
transition), false in OPEN. -/
def can_attempt (cb : CircuitBreaker) (now : Int) : Bool × CircuitBreaker :=
  let (s, cb') := _get_state_locked cb now
  (s == .CLOSED || s == .HALF_OPEN, cb')

/-- Embeds `CircuitBreaker.record_success` (lines 186-193): back to CLOSED, failure
count reset, `opened_at` cleared (`last_failure_time` is left as is). -/
def record_success (cb : CircuitBreaker) : CircuitBreaker :=
  { cb with state := .CLOSED, failure_count := 0, opened_at := none }

/-- Embeds `CircuitBreaker.record_failure` (lines 195-227): reset the count if the
window elapsed since the last failure, increment, flip to OPEN at the
threshold, and flip a HALF_OPEN breaker back to OPEN. -/
def record_failure (cb : CircuitBreaker) (now : Int) : CircuitBreaker :=
  let count0 :=
    match cb.last_failure_time with
    | some t => if now - t > WINDOW_SECONDS then 0 else cb.failure_count
    | none => cb.failure_count
  let count := count0 + 1
  let cb1 : CircuitBreaker :=
    { cb with failure_count := count, last_failure_time := some now }
  let cb2 :=
    if count ≥ FAILURE_THRESHOLD then
      { cb1 with state := .OPEN, opened_at := some now }
    else cb1
  let (s, cb3) := _get_state_locked cb2 now
  if s = .HALF_OPEN then { cb3 with state := .OPEN, opened_at := some now } else cb3

/-- The dict returned by `CircuitBreaker.get_status` (name omitted; the
threshold and cooldown entries are the class constants). -/
structure CircuitStatusSnapshot where
  state : CircuitState
  failureCount : Nat
  threshold : Nat
  cooldownSeconds : Int
  openedAt : Option Int
deriving DecidableEq, Repr

/-- Embeds `CircuitBreaker.get_status` (lines 229-240): reads the state through
`_get_state_locked` (which may perform the lazy OPEN → HALF_OPEN
transition) and returns a snapshot. -/
def get_status (cb : CircuitBreaker) (now : Int) : CircuitStatusSnapshot × CircuitBreaker :=
  let (s, cb') := _get_state_locked cb now
  (⟨s, cb'.failure_count, FAILURE_THRESHOLD, COOLDOWN_SECONDS, cb'.opened_at⟩, cb')

/-! ## Job status writes (`video_task_service.py`, `routers/video_tasks.py`)

The status-carrying fields of a `video_tasks` row.  The service-level
`VideoTaskService.update_task_status` (lines 398-466) builds an update dict
and issues an *unconditional* row update: the status is always written, and
progress / video_url / error_message are written only when supplied.  The
router endpoints (`PATCH /{id}/status`, lines 529-610, and
`POST /{id}/cancel`, lines 784-835) first check `validate_transition` (and,
for PATCH, `validate_status_constraints`) and only then call the service
update; the orchestrator background tasks (`simulate_task_processing`,
`process_runway_task`) call the service update directly with no check. -/

structure Job where
  status : VideoTaskStatus
  progress : Int
  video_url : Option String
  error_message : Option String
deriving DecidableEq, Repr

/-- Embeds `VideoTaskService.update_task_status`: the unconditional database write
(status always; the optional fields only when not `None`). -/
def update_task_status_db (job : Job) (status : VideoTaskStatus)
    (progress : Option Int) (video_url : Option String)
    (error_message : Option String) : Job :=
  { status := status,
    progress := match progress with | some p => p | none => job.progress,
    video_url := match video_url with | some u => some u | none => job.video_url,
    error_message := match error_message with | some m => some m | none => job.error_message }

/-- Body of `PATCH /video-tasks/{id}/status` (`UpdateStatusRequest`). -/
structure UpdateStatusRequest where
  status : VideoTaskStatus
  progress : Option Int
  videoUrl : Option String
  errorMessage : Option String
deriving DecidableEq, Repr

/-- Outcome of a router status write: the updated job, a 409
`ILLEGAL_STATE_TRANSITION`, or a 422 `VALIDATION_ERROR`. -/
inductive RouteResult where
  | ok (job : Job)
  | illegal_transition
  | validation_error (msg : String)
deriving DecidableEq, Repr

/-- Router `update_task_status` (routers/video_tasks.py lines 556-610):
validate the transition, validate the field constraints, then write. -/
def update_task_status_route (job : Job) (req : UpdateStatusRequest) : RouteResult :=
  if ¬ validate_transition job.status req.status then .illegal_transition
  else
    match validate_status_constraints req.status req.progress req.videoUrl req.errorMessage with
    | some m => .validation_error m
    | none => .ok (update_task_status_db job req.status req.progress req.videoUrl req.errorMessage)

/-- Router `cancel_video_task` (lines 784-835): validate the transition to
`cancelled`, then write (no extra fields). -/
def cancel_video_task_route (job : Job) : RouteResult :=
  if ¬ validate_transition job.status cancelled then .illegal_transition
  else .ok (update_task_status_db job cancelled none none none)

/-- The write operations that can hit a job row after creation: the two
validated router endpoints, and a direct orchestrator background write
(`service.update_task_status(...)` from `simulate_task_processing` /
`process_runway_task`, which performs no transition check). -/
inductive JobOp where
  | apiUpdate (req : UpdateStatusRequest)
  | apiCancel
  | orchWrite (status : VideoTaskStatus) (progress : Option Int)
      (video_url : Option String) (error_message : Option String)
deriving DecidableEq, Repr

/-- Effect of one operation on the stored row (a rejected router call leaves
the row unchanged). -/
def applyJobOp (job : Job) : JobOp → Job
  | .apiUpdate req =>
    match update_task_status_route job req with
    | .ok j => j
    | _ => job
  | .apiCancel =>
    match cancel_video_task_route job with
    | .ok j => j
    | _ => job
  | .orchWrite s p v e => update_task_status_db job s p v e

def isTerminal : VideoTaskStatus → Bool
  | completed => true
  | failed => true
  | cancelled => true
  | _ => false

/-- An operation that goes through router-side validation. -/
def JobOp.isApi : JobOp → Bool
  | .apiUpdate _ => true
  | .apiCancel => true
  | .orchWrite _ _ _ _ => false

/-! ## Runway engine adapter (`backend/services/runway.py`)

`create_image_to_video_task` and `get_task_status` both: check the circuit
breaker first (fail immediately with `ENGINE_CIRCUIT_OPEN`, no network
call), then loop attempts 1..MAX_ATTEMPTS issuing HTTP calls.  The network
is modelled as a list of scripted responses (one per call issued; a missing
entry behaves as a network error), and each function additionally returns
the updated breaker and the number of network calls issued. -/

inductive EngineErrorCode where
  | ENGINE_TIMEOUT
  | ENGINE_RATE_LIMITED
  | ENGINE_UNAVAILABLE
  | ENGINE_AUTH_ERROR
  | ENGINE_CIRCUIT_OPEN
  | INVALID_PROMPT
  | TASK_TIMEOUT
  | UNKNOWN_ERROR
deriving DecidableEq, Repr

/-- Embeds `map_status_to_error_code` (resilience.py lines 55-67). -/
def map_status_to_error_code : Option Int → EngineErrorCode
  | none => .ENGINE_TIMEOUT
  | some c =>
    if c = 429 then .ENGINE_RATE_LIMITED
    else if c = 401 ∨ c = 403 then .ENGINE_AUTH_ERROR
    else if c = 400 then .INVALID_PROMPT
    else if c ≥ 500 then .ENGINE_UNAVAILABLE
    else .UNKNOWN_ERROR

/-- The data carried by a raised `RunwayAPIError` (runway.py lines 71-81):
its optional HTTP status and its error code, the latter defaulting to
`map_status_to_error_code(status_code)`. -/
structure RunwayAPIError where
  status_code : Option Int
  error_code : EngineErrorCode
deriving DecidableEq, Repr

/-- Embeds `RunwayAPIError.__init__`: `error_code or map_status_to_error_code(...)`. -/
def mkRunwayAPIError (status_code : Option Int)
    (error_code : Option EngineErrorCode) : RunwayAPIError :=
  ⟨status_code, error_code.getD (map_status_to_error_code status_code)⟩

inductive RunwayTaskStatus where
  | PENDING
  | RUNNING
  | SUCCEEDED
  | FAILED
  | CANCELED
deriving DecidableEq, Repr

/-- Embeds `RunwayTaskStatus(status_str)`: `none` models the `ValueError` raised on
an unrecognized enum value. -/
def runwayTaskStatusOfString : String → Option RunwayTaskStatus
  | "PENDING" => some .PENDING
  | "RUNNING" => some .RUNNING
  | "SUCCEEDED" => some .SUCCEEDED
  | "FAILED" => some .FAILED
  | "CANCELED" => some .CANCELED
  | _ => none

structure RunwayTaskResult where
  task_id : String
  status : RunwayTaskStatus
  progress : Int
  output_url : Option String
  error_message : Option String
deriving DecidableEq, Repr

/-- One scripted response to the `POST /image_to_video` call: a 200/201 JSON
body whose `id` field may be missing, an HTTP error status, or an
`httpx.RequestError`. -/
inductive CreateNetResponse where
  | ok (task_id : Option String)
  | httpErr (status : Int)
  | netErr
deriving DecidableEq, Repr

/-- The retry loop of `create_image_to_video_task` (runway.py lines
187-251), recursing on the remaining attempts.  Returns (result, breaker,
calls issued). -/
def createAttempts (cb : CircuitBreaker) (now : Int) (env : List CreateNetResponse)
    (attempt : Nat) : Nat → Option Int → Nat →
    (Except RunwayAPIError String) × CircuitBreaker × Nat
  | 0, last_status, calls =>
    -- all retries exhausted
    (.error (mkRunwayAPIError last_status none), record_failure cb now, calls)
  | n + 1, last_status, calls =>
    let resp := env.headD .netErr
    let calls' := calls + 1
    match resp with
    | .ok (some tid) => (.ok tid, record_success cb, calls')
    | .ok none =>
      -- "Runway API did not return task ID": raised inside the try block,
      -- not caught (only httpx.RequestError is), breaker untouched
      (.error (mkRunwayAPIError none none), cb, calls')
    | .httpErr s =>
      if ¬ is_retryable none (some s) then
        (.error (mkRunwayAPIError (some s) none), record_failure cb now, calls')
      else createAttempts cb now env.tail (attempt + 1) n (some s) calls'
    | .netErr =>
      if should_retry attempt then
        createAttempts cb now env.tail (attempt + 1) n none calls'
      else (.error (mkRunwayAPIError none none), record_failure cb now, calls')

/-- Embeds `create_image_to_video_task` (runway.py lines 134-251): circuit check,
then the retry loop. -/
def create_image_to_video_task (cb : CircuitBreaker) (now : Int)
    (env : List CreateNetResponse) :
    (Except RunwayAPIError String) × CircuitBreaker × Nat :=
  let r := can_attempt cb now
  if r.1 then createAttempts r.2 now env 1 MAX_ATTEMPTS none 0
  else (.error (mkRunwayAPIError none (some .ENGINE_CIRCUIT_OPEN)), r.2, 0)

/-- One scripted response to the `GET /tasks/{id}` poll: a 200 JSON body
(`status`, `output` array, optional `failure` / `failureCode` fields), an
HTTP error status, or an `httpx.RequestError`. -/
inductive PollNetResponse where
  | ok (status_str : String) (output : List String)
      (failure : Option String) (failureCode : Option String)
  | httpErr (status : Int)
  | netErr
deriving DecidableEq, Repr

/-- Outcome of `get_task_status`: a result, a raised `RunwayAPIError`, or
the `ValueError` from `RunwayTaskStatus(status_str)` on an unknown status
string. -/
inductive PollOutcome where
  | ok (r : RunwayTaskResult)
  | apiError (e : RunwayAPIError)
  | valueError
deriving DecidableEq, Repr

/-- The retry loop of `get_task_status` (runway.py lines 287-375). -/
def pollAttempts (task_id : String) (cb : CircuitBreaker) (now : Int)
    (env : List PollNetResponse) (attempt : Nat) :
    Nat → Option Int → Nat → PollOutcome × CircuitBreaker × Nat
  | 0, last_status, calls =>
    (.apiError (mkRunwayAPIError last_status none), record_failure cb now, calls)
  | n + 1, last_status, calls =>
    let resp := env.headD .netErr
    let calls' := calls + 1
    match resp with
    | .ok status_str output failure failureCode =>
      let progress : Int :=
        if status_str = "RUNNING" then 50
        else if status_str = "SUCCEEDED" then 100
        else 0
      let output_url : Option String :=
        if status_str = "SUCCEEDED" then output.head? else none
      let error_message : Option String :=
        if status_str = "FAILED" then some (failure.getD (failureCode.getD "Unknown error"))
        else if status_str = "CANCELED" then some "Task was canceled"
        else none
      -- record_success() runs before RunwayTaskStatus(status_str) is built
      match runwayTaskStatusOfString status_str with
      | some st =>
        (.ok ⟨task_id, st, progress, output_url, error_message⟩, record_success cb, calls')
      | none => (.valueError, record_success cb, calls')
    | .httpErr s =>
      if ¬ is_retryable none (some s) then
        (.apiError (mkRunwayAPIError (some s) none), record_failure cb now, calls')
      else pollAttempts task_id cb now env.tail (attempt + 1) n (some s) calls'
    | .netErr =>
      if should_retry attempt then
        pollAttempts task_id cb now env.tail (attempt + 1) n none calls'
      else (.apiError (mkRunwayAPIError none none), record_failure cb now, calls')

/-- Embeds `get_task_status` (runway.py lines 254-375): circuit check, then the
poll retry loop. -/
def get_task_status (task_id : String) (cb : CircuitBreaker) (now : Int)
    (env : List PollNetResponse) : PollOutcome × CircuitBreaker × Nat :=
  let r := can_attempt cb now
  if r.1 then pollAttempts task_id r.2 now env 1 MAX_ATTEMPTS none 0
  else (.apiError (mkRunwayAPIError none (some .ENGINE_CIRCUIT_OPEN)), r.2, 0)

/-! ## SHA-256 and the idempotency payload hash
(`backend/services/idempotency.py`)

`_hash_payload` is `hashlib.sha256(json.dumps(payload, sort_keys=True,
default=str).encode()).hexdigest()[:16]`.  The payload dict built by the
creation route holds exactly the keys `title`, `prompt`, `engine`, all
strings, so `json.dumps(..., sort_keys=True)` renders them in the key order
`engine`, `prompt`, `title` with Python's default `ensure_ascii=True`
escaping, and `.encode()` is UTF-8.  SHA-256 is implemented below over byte
lists (checked against the FIPS 180-4 test vectors), words as `Nat` reduced
mod 2^32. -/

def w32 (n : Nat) : Nat := n % 4294967296

def rotr (n x : Nat) : Nat := w32 ((x >>> n) + ((x % (2 ^ n)) <<< (32 - n)))

def bigSigma0 (x : Nat) : Nat := rotr 2 x ^^^ rotr 13 x ^^^ rotr 22 x

def bigSigma1 (x : Nat) : Nat := rotr 6 x ^^^ rotr 11 x ^^^ rotr 25 x

def smallSigma0 (x : Nat) : Nat := rotr 7 x ^^^ rotr 18 x ^^^ (x >>> 3)

def smallSigma1 (x : Nat) : Nat := rotr 17 x ^^^ rotr 19 x ^^^ (x >>> 10)

def chBits (x y z : Nat) : Nat := (x &&& y) ^^^ ((x ^^^ 4294967295) &&& z)

def majBits (x y z : Nat) : Nat := (x &&& y) ^^^ (x &&& z) ^^^ (y &&& z)

def SHA256_K : List Nat :=
  [1116352408, 1899447441, 3049323471, 3921009573, 961987163,
   1508970993, 2453635748, 2870763221, 3624381080, 310598401,
   607225278, 1426881987, 1925078388, 2162078206, 2614888103,
   3248222580, 3835390401, 4022224774, 264347078, 604807628,
   770255983, 1249150122, 1555081692, 1996064986, 2554220882,
   2821834349, 2952996808, 3210313671, 3336571891, 3584528711,
   113926993, 338241895, 666307205, 773529912, 1294757372,
   1396182291, 1695183700, 1986661051, 2177026350, 2456956037,
   2730485921, 2820302411, 3259730800, 3345764771, 3516065817,
   3600352804, 4094571909, 275423344, 430227734, 506948616,
   659060556, 883997877, 958139571, 1322822218, 1537002063,
   1747873779, 1955562222, 2024104815, 2227730452, 2361852424,
   2428436474, 2756734187, 3204031479, 3329325298]

def SHA256_H0 : List Nat :=
  [1779033703, 3144134277, 1013904242, 2773480762,
   1359893119, 2600822924, 528734635, 1541459225]

/-- Big-endian 8-byte rendering of the bit length. -/
def be8 (n : Nat) : List Nat :=
  [n >>> 56 % 256, n >>> 48 % 256, n >>> 40 % 256, n >>> 32 % 256,
   n >>> 24 % 256, n >>> 16 % 256, n >>> 8 % 256, n % 256]

/-- Merkle-Damgård padding: 0x80, zeros to 56 mod 64, 8-byte bit length. -/
def sha256Pad (msg : List Nat) : List Nat :=
  let z := (119 - msg.length % 64) % 64
  msg ++ 0x80 :: List.replicate z 0 ++ be8 (msg.length * 8)

def bytesToWords : List Nat → List Nat
  | a :: b :: c :: d :: rest => (((a * 256 + b) * 256 + c) * 256 + d) :: bytesToWords rest
  | _ => []

def wordToBytes (w : Nat) : List Nat :=
  [w >>> 24 % 256, w >>> 16 % 256, w >>> 8 % 256, w % 256]

/-- Message-schedule extension: append `n` more words. -/
def extendLoop : Nat → List Nat → List Nat
  | 0, w => w
  | n + 1, w =>
    let i := w.length
    let nw := w32 (w.getD (i - 16) 0 + smallSigma0 (w.getD (i - 15) 0) +
      w.getD (i - 7) 0 + smallSigma1 (w.getD (i - 2) 0))
    extendLoop n (w ++ [nw])

abbrev Sha256State :=
  Nat × Nat × Nat × Nat × Nat × Nat × Nat × Nat

def sha256Round (st : Sha256State) (kw : Nat × Nat) : Sha256State :=
  let (a, b, c, d, e, f, g, h) := st
  let (k, wv) := kw
  let t1 := w32 (h + bigSigma1 e + chBits e f g + k + wv)
  let t2 := w32 (bigSigma0 a + majBits a b c)
  (w32 (t1 + t2), a, b, c, w32 (d + t1), e, f, g)

def compressBlock (H : List Nat) (block : List Nat) : List Nat :=
  let w := extendLoop 48 block
  let st0 : Sha256State :=
    (H.getD 0 0, H.getD 1 0, H.getD 2 0, H.getD 3 0,
     H.getD 4 0, H.getD 5 0, H.getD 6 0, H.getD 7 0)
  let (a, b, c, d, e, f, g, h) := (SHA256_K.zip w).foldl sha256Round st0
  [w32 (H.getD 0 0 + a), w32 (H.getD 1 0 + b), w32 (H.getD 2 0 + c),
   w32 (H.getD 3 0 + d), w32 (H.getD 4 0 + e), w32 (H.getD 5 0 + f),
   w32 (H.getD 6 0 + g), w32 (H.getD 7 0 + h)]

def sha256Blocks (H : List Nat) : List Nat → List Nat
  | w0 :: w1 :: w2 :: w3 :: w4 :: w5 :: w6 :: w7 :: w8 :: w9 :: w10 :: w11 ::
      w12 :: w13 :: w14 :: w15 :: rest =>
    sha256Blocks
      (compressBlock H [w0, w1, w2, w3, w4, w5, w6, w7, w8, w9, w10, w11, w12, w13, w14, w15])
      rest
  | _ => H

def sha256 (msg : List Nat) : List Nat :=
  ((sha256Blocks SHA256_H0 (bytesToWords (sha256Pad msg))).map wordToBytes).flatten

def hexChar (n : Nat) : Char := "0123456789abcdef".data.getD n '0'

/-- Lowercase `hexdigest()` of a byte list. -/
def bytesToHex (bs : List Nat) : List Char :=
  (bs.map (fun b => [hexChar (b / 16), hexChar (b % 16)])).flatten

/-- UTF-8 encoding of one scalar value (what Python `str.encode()` emits per
code point). -/
def utf8EncodeChar (c : Char) : List Nat :=
  if c.toNat < 128 then [c.toNat]
  else if c.toNat < 2048 then [192 + c.toNat / 64, 128 + c.toNat % 64]
  else if c.toNat < 65536 then
    [224 + c.toNat / 4096, 128 + c.toNat / 64 % 64, 128 + c.toNat % 64]
  else
    [240 + c.toNat / 262144, 128 + c.toNat / 4096 % 64,
     128 + c.toNat / 64 % 64, 128 + c.toNat % 64]

def utf8Encode (cs : List Char) : List Nat :=
  (cs.map utf8EncodeChar).flatten

def toHex4 (n : Nat) : List Char :=
  [hexChar (n / 4096 % 16), hexChar (n / 256 % 16), hexChar (n / 16 % 16), hexChar (n % 16)]

/-- One character escaped the way `json.dumps` (default `ensure_ascii=True`)
renders string contents: the two-character escapes, `\u00xx` for other
control characters, printable ASCII verbatim, `\uxxxx` for non-ASCII and a
surrogate pair for supplementary-plane characters. -/
def jsonEscapeChar (c : Char) : List Char :=
  if c = '"' then ['\\', '"']
  else if c = '\\' then ['\\', '\\']
  else if c = '\n' then ['\\', 'n']
  else if c = '\r' then ['\\', 'r']
  else if c = '\t' then ['\\', 't']
  else if c.toNat = 8 then ['\\', 'b']
  else if c.toNat = 12 then ['\\', 'f']
  else if 32 ≤ c.toNat ∧ c.toNat ≤ 126 then [c]
  else if c.toNat < 65536 then '\\' :: 'u' :: toHex4 c.toNat
  else
    let n := c.toNat - 65536
    ('\\' :: 'u' :: toHex4 (55296 + n / 1024)) ++ ('\\' :: 'u' :: toHex4 (56320 + n % 1024))

def jsonQuote (s : String) : List Char :=
  '"' :: (s.data.map jsonEscapeChar).flatten ++ ['"']

/-- The payload dict built by `create_video_task` (routers/video_tasks.py
lines 397-401): exactly the keys `title`, `prompt`, `engine`. -/
structure IdempPayload where
  title : String
  prompt : String
  engine : String
deriving DecidableEq, Repr

/-- Embeds `json.dumps(payload, sort_keys=True, default=str)` on the three-key
string dict: keys in sorted order `engine`, `prompt`, `title`, separated by
`", "` and `": "` (the braces are the literal JSON delimiters). -/
def payloadJsonDumps (p : IdempPayload) : String :=
  String.mk ('\x7b' :: ('"' :: "engine".data ++ '"' :: ':' :: ' ' :: jsonQuote p.engine)
    ++ ',' :: ' ' :: ('"' :: "prompt".data ++ '"' :: ':' :: ' ' :: jsonQuote p.prompt)
    ++ ',' :: ' ' :: ('"' :: "title".data ++ '"' :: ':' :: ' ' :: jsonQuote p.title)
    ++ ['\x7d'])

/-- Embeds `_hash_payload` (idempotency.py lines 34-45): first 16 hex characters of
the SHA-256 of the canonical JSON rendering. -/
def _hash_payload (p : IdempPayload) : String :=
  (String.mk (bytesToHex (sha256 (utf8Encode (payloadJsonDumps p).data)))).take 16

/-! ## Idempotency guard (`backend/services/idempotency.py`) and the
creation route (`backend/routers/video_tasks.py` lines 395-471) -/

/-- A row of the `idempotency_keys` table. -/
structure IdempotencyRecord where
  user_id : String
  idempotency_key : String
  payload_hash : String
  task_id : Option String
  created_at : Int
deriving DecidableEq, Repr

def IDEMPOTENCY_TTL_HOURS : Int := 24

/-- Embeds `_get_ttl_cutoff()`: `now - timedelta(hours=TTL)`, in seconds. -/
def ttlCutoff (now : Int) : Int := now - IDEMPOTENCY_TTL_HOURS * 3600

/-- Embeds `IdempotencyResult` dataclass. -/
structure IdempotencyResult where
  hit : Bool
  task_id : Option String
  mismatch : Bool
deriving DecidableEq, Repr

/-- The `idempotency_keys` query of `check_idempotency`: the first row for
`(user_id, key)` created within the TTL window. -/
def lookupIdempotencyRecord (store : List IdempotencyRecord)
    (user_id key : String) (cutoff : Int) : Option IdempotencyRecord :=
  store.find? (fun r =>
    r.user_id == user_id && r.idempotency_key == key && decide (r.created_at ≥ cutoff))

/-- The body of `async def check_idempotency` (idempotency.py lines 69-132)
over a store snapshot: miss when no row is in the TTL window, a hit with the
bound task id when the stored hash matches `_hash_payload(payload)`, a
mismatch otherwise.  (The fail-open exception handler is not modelled: the
store here never errors.) -/
def check_idempotency (store : List IdempotencyRecord) (user_id key : String)
    (payload : IdempPayload) (now : Int) : IdempotencyResult :=
  match lookupIdempotencyRecord store user_id key (ttlCutoff now) with
  | none => ⟨false, none, false⟩
  | some cached =>
    if cached.payload_hash = _hash_payload payload then ⟨true, cached.task_id, false⟩
    else ⟨false, none, true⟩

inductive VideoEngine where
  | runway
  | mock
deriving DecidableEq, Repr

def VideoEngine.value : VideoEngine → String
  | runway => "runway"
  | mock => "mock"

/-- Embeds `VideoTaskParams` request model. -/
structure VideoTaskParams where
  durationSec : Int
  ratio : String
deriving DecidableEq, Repr

/-- Embeds `CreateVideoTaskRequest` body. -/
structure CreateVideoTaskRequest where
  title : String
  prompt : String
  sourceImageUrl : Option String
  engine : VideoEngine
  params : Option VideoTaskParams
deriving DecidableEq, Repr

/-- The idempotency payload built from the request (routers/video_tasks.py
lines 397-401 and 445-449): only `title`, `prompt` and `engine.value` —
`sourceImageUrl` and `params` are not part of it. -/
def create_payload (r : CreateVideoTaskRequest) : IdempPayload :=
  ⟨r.title, r.prompt, r.engine.value⟩

/-- Result of the creation route, as seen by the client. -/
inductive CreateRouteResult where
  | serverError (msg : String)
  | conflict
  | existingTask (task_id : String)
  | created (task_id : String)
deriving DecidableEq, Repr

/-- Embeds `create_video_task` (routers/video_tasks.py lines 395-471), from the
idempotency check onward; returns (result, idempotency store after, number
of task rows inserted).  When an `Idempotency-Key` header is present, line
402 runs `idemp_result = check_idempotency(user.id, idempotency_key,
payload)` *without* `await`: `check_idempotency` is an `async def`, so
`idemp_result` is bound to a coroutine object, and line 405
(`idemp_result.mismatch`) raises `AttributeError` before any idempotency
logic or task creation runs — FastAPI converts the unhandled exception into
an HTTP 500.  `store_idempotency` (line 450) is likewise never awaited, so
no record would ever be written either. -/
def create_video_task (req : CreateVideoTaskRequest) (idempotency_key : Option String)
    (store : List IdempotencyRecord) (new_task_id : String) (now : Int) :
    CreateRouteResult × List IdempotencyRecord × Nat :=
  match idempotency_key with
  | some _ =>
    (.serverError "AttributeError: coroutine object has no attribute mismatch", store, 0)
  | none => (.created new_task_id, store, 1)

/-! ## Cursor pagination codec (C7) -/

/-- One step of UTF-8 decoding, with fuel (the fuel is consumed one unit
per decoded character; `utf8Decode` supplies the byte count, which always
suffices).  `none` models `UnicodeDecodeError` from `bytes.decode()`. -/
def utf8DecodeAux : Nat → List Nat → Option (List Char)
  | _, [] => some []
  | 0, _ :: _ => none
  | fuel + 1, b :: bs =>
    if b < 128 then
      (utf8DecodeAux fuel bs).map (fun cs => Char.ofNat b :: cs)
    else if b < 192 then none
    else if b < 224 then
      match bs with
      | b1 :: bs' =>
        if 128 ≤ b1 ∧ b1 < 192 then
          (utf8DecodeAux fuel bs').map (fun cs => Char.ofNat ((b - 192) * 64 + (b1 - 128)) :: cs)
        else none
      | [] => none
    else if b < 240 then
      match bs with
      | b1 :: b2 :: bs' =>
        if (128 ≤ b1 ∧ b1 < 192) ∧ (128 ≤ b2 ∧ b2 < 192) then
          (utf8DecodeAux fuel bs').map (fun cs =>
            Char.ofNat ((b - 224) * 4096 + (b1 - 128) * 64 + (b2 - 128)) :: cs)
        else none
      | _ => none
    else if b < 248 then
      match bs with
      | b1 :: b2 :: b3 :: bs' =>
        if (128 ≤ b1 ∧ b1 < 192) ∧ (128 ≤ b2 ∧ b2 < 192) ∧ (128 ≤ b3 ∧ b3 < 192) then
          (utf8DecodeAux fuel bs').map (fun cs =>
            Char.ofNat ((b - 240) * 262144 + (b1 - 128) * 4096 + (b2 - 128) * 64 + (b3 - 128)) :: cs)
        else none
      | _ => none
    else none

def utf8Decode (bs : List Nat) : Option (List Char) :=
  utf8DecodeAux bs.length bs

/-! ### urlsafe base64 (`base64.urlsafe_b64encode` / `urlsafe_b64decode`) -/

def B64_ALPHABET : List Char :=
  "ABCDEFGHIJKLMNOPQRSTUVWXYZabcdefghijklmnopqrstuvwxyz0123456789-_".data

def b64EncChar (i : Nat) : Char := B64_ALPHABET.getD i 'A'

def b64DecChar (c : Char) : Option Nat :=
  B64_ALPHABET.findIdx? (· = c)

/-- Embeds `base64.urlsafe_b64encode` over bytes, producing the ASCII characters
(with `=` padding). -/
def b64Encode : List Nat → List Char
  | [] => []
  | [a] => [b64EncChar (a / 4), b64EncChar (a % 4 * 16), '=', '=']
  | [a, b] => [b64EncChar (a / 4), b64EncChar (a % 4 * 16 + b / 16), b64EncChar (b % 16 * 4), '=']
  | a :: b :: c :: rest =>
    b64EncChar (a / 4) :: b64EncChar (a % 4 * 16 + b / 16) ::
      b64EncChar (b % 16 * 4 + c / 64) :: b64EncChar (c % 64) :: b64Encode rest

/-- Embeds `base64.urlsafe_b64decode` over the characters: four-character groups,
`=`-padding only at the end; `none` models `binascii.Error`.  (CPython also
discards characters outside the alphabet before decoding; on the outputs of
`b64Encode`, which contain none, the two agree.) -/
def b64Decode : List Char → Option (List Nat)
  | [] => some []
  | c1 :: c2 :: c3 :: c4 :: rest =>
    match b64DecChar c1, b64DecChar c2 with
    | some v1, some v2 =>
      if c3 = '=' then
        if c4 = '=' ∧ rest = [] then some [v1 * 4 + v2 / 16] else none
      else
        match b64DecChar c3 with
        | some v3 =>
          if c4 = '=' then
            if rest = [] then some [v1 * 4 + v2 / 16, v2 % 16 * 16 + v3 / 4] else none
          else
            match b64DecChar c4 with
            | some v4 =>
              (b64Decode rest).map (fun bs =>
                (v1 * 4 + v2 / 16) :: (v2 % 16 * 16 + v3 / 4) :: (v3 % 4 * 64 + v4) :: bs)
            | none => none
        | none => none
    | _, _ => none
  | _ => none

/-! ### `str.split("|")` -/

/-- Python `raw.split("|")` over the character list (an empty string yields
one empty part). -/
def splitPipe : List Char → List (List Char)
  | [] => [[]]
  | c :: rest =>
    if c = '|' then [] :: splitPipe rest
    else
      match splitPipe rest with
      | h :: t => (c :: h) :: t
      | [] => [[c]]

/-! ### Datetimes: `datetime.isoformat`, `datetime.fromisoformat`,
`safe_parse_datetime` -/

/-- A timezone-aware UTC datetime (every datetime this code builds carries
`timezone.utc`). -/
structure DateTime where
  year : Nat
  month : Nat
  day : Nat
  hour : Nat
  minute : Nat
  second : Nat
  microsecond : Nat
deriving DecidableEq, Repr

/-- Field bounds under which a `DateTime` is a well-formed Python datetime
(day-of-month granularity: Python also checks the month length, which only
shrinks the set further and is irrelevant to printing/parsing). -/
def DateTime.isValid (d : DateTime) : Prop :=
  1 ≤ d.year ∧ d.year ≤ 9999 ∧ 1 ≤ d.month ∧ d.month ≤ 12 ∧ 1 ≤ d.day ∧ d.day ≤ 31 ∧
  d.hour ≤ 23 ∧ d.minute ≤ 59 ∧ d.second ≤ 59 ∧ d.microsecond ≤ 999999

instance (d : DateTime) : Decidable d.isValid := by
  unfold DateTime.isValid
  infer_instance

def pad2 (n : Nat) : List Char := [hexChar (n / 10 % 10), hexChar (n % 10)]

def pad4 (n : Nat) : List Char :=
  [hexChar (n / 1000 % 10), hexChar (n / 100 % 10), hexChar (n / 10 % 10), hexChar (n % 10)]

def pad6 (n : Nat) : List Char :=
  [hexChar (n / 100000 % 10), hexChar (n / 10000 % 10), hexChar (n / 1000 % 10),
   hexChar (n / 100 % 10), hexChar (n / 10 % 10), hexChar (n % 10)]

/-- The UTC offset suffix `+00:00` that `isoformat()` prints for
`timezone.utc`-aware datetimes. -/
def utcSuffix : List Char := ['+', '0', '0', ':', '0', '0']

/-- Embeds `datetime.isoformat()` for a `timezone.utc`-aware datetime:
`YYYY-MM-DDTHH:MM:SS[.ffffff]+00:00`, the fraction printed only when the
microsecond field is non-zero. -/
def DateTime.isoformat (d : DateTime) : String :=
  String.mk (pad4 d.year ++ '-' :: pad2 d.month ++ '-' :: pad2 d.day ++ 'T' :: pad2 d.hour
    ++ ':' :: pad2 d.minute ++ ':' :: pad2 d.second
    ++ (if d.microsecond = 0 then [] else '.' :: pad6 d.microsecond)
    ++ utcSuffix)

def parseDigit (c : Char) : Option Nat :=
  if '0' ≤ c ∧ c ≤ '9' then some (c.toNat - 48) else none

/-- Parse the tail after `HH:MM:SS`: nothing, a `.ffffff` fraction, a
`+00:00` offset, or both (the canonical shapes `safe_parse_datetime` feeds
to `fromisoformat`; other `fromisoformat` inputs are out of scope and
rejected, which only sends `safe_parse_datetime` to its fallback). -/
def parseFracTz : List Char → Option Nat
  | [] => some 0
  | '.' :: f1 :: f2 :: f3 :: f4 :: f5 :: f6 :: rest =>
    if rest = [] ∨ rest = utcSuffix then
      match parseDigit f1, parseDigit f2, parseDigit f3,
          parseDigit f4, parseDigit f5, parseDigit f6 with
      | some d1, some d2, some d3, some d4, some d5, some d6 =>
        some (d1 * 100000 + d2 * 10000 + d3 * 1000 + d4 * 100 + d5 * 10 + d6)
      | _, _, _, _, _, _ => none
    else none
  | rest => if rest = utcSuffix then some 0 else none

/-- Embeds `datetime.fromisoformat` on the canonical grammar
`YYYY-MM-DDTHH:MM:SS[.ffffff][+00:00]` (with Python's field-range
validation; `none` models `ValueError`). -/
def parseIsoDateTime (cs : List Char) : Option DateTime :=
  match cs with
  | y1 :: y2 :: y3 :: y4 :: sp1 :: m1 :: m2 :: sp2 :: d1 :: d2 :: spT ::
      h1 :: h2 :: sp3 :: mi1 :: mi2 :: sp4 :: s1 :: s2 :: rest =>
    if sp1 = '-' ∧ sp2 = '-' ∧ spT = 'T' ∧ sp3 = ':' ∧ sp4 = ':' then
      match parseDigit y1, parseDigit y2, parseDigit y3, parseDigit y4 with
      | some a1, some a2, some a3, some a4 =>
        match parseDigit m1, parseDigit m2, parseDigit d1, parseDigit d2 with
        | some b1, some b2, some c1, some c2 =>
          match parseDigit h1, parseDigit h2, parseDigit mi1, parseDigit mi2,
              parseDigit s1, parseDigit s2 with
          | some e1, some e2, some f1, some f2, some g1, some g2 =>
            match parseFracTz rest with
            | some us =>
              let year := a1 * 1000 + a2 * 100 + a3 * 10 + a4
              let month := b1 * 10 + b2
              let day := c1 * 10 + c2
              let hour := e1 * 10 + e2
              let minute := f1 * 10 + f2
              let second := g1 * 10 + g2
              if 1 ≤ year ∧ 1 ≤ month ∧ month ≤ 12 ∧ 1 ≤ day ∧ day ≤ 31 ∧
                  hour ≤ 23 ∧ minute ≤ 59 ∧ second ≤ 59 then
                some ⟨year, month, day, hour, minute, second, us⟩
              else none
            | none => none
          | _, _, _, _, _, _ => none
        | _, _, _, _ => none
      | _, _, _, _ => none
    else none
  | _ => none

def isDigitChar (c : Char) : Bool := decide ('0' ≤ c ∧ c ≤ '9')

/-- Does a six-character tail match the regex tail `[+-]\d{2}:\d{2}`? -/
def tzShape : List Char → Bool
  | [s, d1, d2, c, d3, d4] =>
    (s = '+' || s = '-') && isDigitChar d1 && isDigitChar d2 && (c = ':') &&
      isDigitChar d3 && isDigitChar d4
  | _ => false

/-- Embeds `dt_str.replace("Z", "+00:00")`. -/
def replaceZ (cs : List Char) : List Char :=
  (cs.map (fun c => if c = 'Z' then utcSuffix else [c])).flatten

/-- The regex fix-up of `safe_parse_datetime`
(`re.match(r"(.+\.\d{1,6})(\d*)([+-]\d{2}:\d{2})$", dt_str)`): when the
string ends in a timezone offset preceded by a digit run preceded by a dot,
keep the first (up to) six fraction digits, right-pad them with zeros to
six, drop the rest, and reattach the offset; otherwise leave the string
unchanged. -/
def fixFraction (cs : List Char) : List Char :=
  if cs.length < 6 then cs
  else
    let tz := cs.drop (cs.length - 6)
    if tzShape tz then
      let rest := cs.take (cs.length - 6)
      let ds := (rest.reverse.takeWhile isDigitChar).reverse
      let pre := rest.take (rest.length - ds.length)
      if 1 ≤ ds.length ∧ 2 ≤ pre.length ∧ pre.getLast? = some '.' then
        let keep := ds.take 6
        pre ++ (keep ++ List.replicate (6 - keep.length) '0') ++ tz
      else cs
    else cs

/-- Embeds `safe_parse_datetime` (video_task_service.py lines 38-69): empty input
or a parse failure falls back to `datetime.now(timezone.utc)`, passed here
as `now`. -/
def safe_parse_datetime (dt_str : String) (now : DateTime) : DateTime :=
  if dt_str = "" then now
  else
    match parseIsoDateTime (fixFraction (replaceZ dt_str.data)) with
    | some d => d
    | none => now

/-! ### The cursor codec (`video_task_service.py` lines 82-120) -/

/-- Python `x or ''` on an `Optional[str]`. -/
def pyOrEmpty : Option String → String
  | some s => if s = "" then "" else s
  | none => ""

/-- The raw pre-base64 string
`f"{created_at.isoformat()}|{task_id}|{q or ''}|{status or ''}|{sort}"`. -/
def cursorRaw (created_at : DateTime) (task_id : String) (q status : Option String)
    (sort : String) : List Char :=
  (DateTime.isoformat created_at).data ++ '|' :: task_id.data ++ '|' ::
    (pyOrEmpty q).data ++ '|' :: (pyOrEmpty status).data ++ '|' :: sort.data

/-- Embeds `encode_cursor` (lines 82-94). -/
def encode_cursor (created_at : DateTime) (task_id : String) (q status : Option String)
    (sort : String) : String :=
  String.mk (b64Encode (utf8Encode (cursorRaw created_at task_id q status sort)))

/-- Embeds `decode_cursor` (lines 97-120).  `now` is the `datetime.now(timezone.utc)`
fallback inside `safe_parse_datetime`.  Any decoding error yields `none`
(the `except` clause); a 2-part legacy cursor is treated as expired. -/
def decode_cursor (cursor : String) (now : DateTime) :
    Option (DateTime × String × Option String × Option String × String) :=
  match b64Decode cursor.data with
  | none => none
  | some bytes =>
    match utf8Decode bytes with
    | none => none
    | some chars =>
      let parts := splitPipe chars
      if parts.length = 2 then none
      else if parts.length = 5 then
        let p2 := String.mk (parts.getD 2 [])
        let p3 := String.mk (parts.getD 3 [])
        some (safe_parse_datetime (String.mk (parts.getD 0 [])) now,
          String.mk (parts.getD 1 []),
          (if p2 = "" then none else some p2),
          (if p3 = "" then none else some p3),
          String.mk (parts.getD 4 []))
      else none

/-! ### The cursor section of `GET /video-tasks`
(`routers/video_tasks.py` lines 199-253) -/

inductive ListRouteError where
  | invalidCursor
  | cursorFilterMismatch
deriving DecidableEq, Repr

/-- The whitespace set of Python `str.strip()` (ASCII portion; query
strings never carry the exotic unicode spaces). -/
def isPySpace (c : Char) : Bool :=
  c = ' ' || c = '\t' || c = '\n' || c = '\r' || c = '\x0b' || c = '\x0c'

/-- Python `s.strip()`. -/
def pyStrip (s : String) : String :=
  String.mk (((s.data.dropWhile isPySpace).reverse.dropWhile isPySpace).reverse)

/-- Lines 199-202: `normalized_q = q.strip() if q else None`, then empty
becomes `None`. -/
def normalizeQ : Option String → Option String
  | none => none
  | some s =>
    if s = "" then none
    else
      let t := pyStrip s
      if t = "" then none else some t

/-- The cursor validation of `get_video_tasks` (lines 214-253): decode the
cursor (400 `INVALID_CURSOR` on failure) and reject it with 400
`CURSOR_FILTER_MISMATCH` when its embedded `q`/`status`/`sort` differ from
the request's current filters (`q`/`status` compared after Python's
`or ""` collapse). -/
def get_video_tasks_cursor_check (cursor : String) (q status : Option String) (sort : String)
    (now : DateTime) : Except ListRouteError (DateTime × String) :=
  match decode_cursor cursor now with
  | none => .error .invalidCursor
  | some (cursor_time, cursor_id, cursor_q, cursor_status, cursor_sort) =>
    let current_q := pyOrEmpty (normalizeQ q)
    let current_status := pyOrEmpty status
    let cursor_q_val := pyOrEmpty cursor_q
    let cursor_status_val := pyOrEmpty cursor_status
    if cursor_q_val ≠ current_q ∨ cursor_status_val ≠ current_status ∨ cursor_sort ≠ sort then
      .error .cursorFilterMismatch
    else .ok (cursor_time, cursor_id)

/-! ## Theorems -/

/-! ### C4: transition adjacency -/

/-- C4. `validate_transition(from, to)` returns true exactly for the pairs
queued→processing, queued→failed, queued→cancelled, processing→completed,
processing→failed, processing→cancelled, and false for every other pair;
the three terminal statuses have no outgoing edges. -/
theorem C4_validate_transition_adjacency :
    (∀ f t : VideoTaskStatus,
      validate_transition f t = true ↔
        (f, t) ∈ [(queued, processing), (queued, failed), (queued, cancelled),
          (processing, completed), (processing, failed), (processing, cancelled)]) ∧
    (∀ t : VideoTaskStatus,
      validate_transition completed t = false ∧
      validate_transition failed t = false ∧
      validate_transition cancelled t = false) := by
  constructor
  · intro f t
    cases f <;> cases t <;> simp [validate_transition, ALLOWED_TRANSITIONS]
  · intro t
    cases t <;> simp [validate_transition, ALLOWED_TRANSITIONS]

/-! ### C5: per-status field constraints -/

/-- C5 counterexample. The claim says `validate_status_constraints` returns
no error exactly when the §4.3 per-status constraints hold, and that
`processing` requires progress in [0,99].  The code only rejects
`progress >= 100` for `processing` (and accepts a missing progress), so
`progress = -1` is accepted although it is not in [0,99]. -/
theorem C5_counterexample :
    validate_status_constraints .processing (some (-1)) none none = none ∧
    ¬ specStatusConstraints .processing (some (-1)) none none := by
  refine ⟨by decide, ?_⟩
  rintro ⟨⟨p, hp, h0, -⟩, -, -⟩
  cases hp
  omega

/-- C5 (amended). `validate_status_constraints` returns no error exactly when:
`queued`: progress is omitted or 0, and videoUrl/errorMessage are absent;
`processing`: progress is omitted or at most 99 (no lower bound is checked),
and videoUrl/errorMessage are absent; `completed`: progress is exactly 100, a
non-empty videoUrl is present, errorMessage is absent; `failed`: a non-empty
errorMessage is present and videoUrl is absent (progress unconstrained);
`cancelled`: videoUrl and errorMessage are absent (progress unconstrained). -/
theorem C5_status_constraints_characterization
    (status : VideoTaskStatus) (progress : Option Int)
    (video_url error_message : Option String) :
    validate_status_constraints status progress video_url error_message = none ↔
      codeStatusConstraints status progress video_url error_message := by
  cases status <;>
    rcases progress with _ | p <;>
    rcases video_url with _ | u <;>
    rcases error_message with _ | m <;>
    simp [validate_status_constraints, codeStatusConstraints, strTruthy]
  all_goals try split_ifs
  all_goals try simp_all
  all_goals omega

/-! ### C8: retryability classification -/

/-- C8 counterexample. The claim says every 5xx status is retryable, but the
retryable set is literally `{429, 500, 502, 503, 504}`: HTTP 501 is a 5xx
status and `is_retryable` classifies it as not retryable. -/
theorem C8_counterexample :
    is_retryable none (some 501) = false ∧ (500 : Int) ≤ 501 ∧ (501 : Int) < 600 := by
  decide

/-- C8 (amended). Network/timeout errors (`httpx.RequestError`,
`httpx.TimeoutException`) are always retryable; an HTTP status is retryable
iff it is one of 429, 500, 502, 503, 504 (so other 5xx codes such as 501 or
505 are not retryable); 400, 401, 403 and 404 are not
retryable. -/
theorem C8_is_retryable_characterization :
    (∀ (e : PyException) (sc : Option Int),
      isNetworkError e = true → is_retryable (some e) sc = true) ∧
    (∀ c : Int, is_retryable none (some c) = true ↔ c ∈ RETRYABLE_STATUS_CODES) ∧
    (is_retryable none (some 400) = false ∧ is_retryable none (some 401) = false ∧
      is_retryable none (some 403) = false ∧ is_retryable none (some 404) = false) := by
  refine ⟨?_, ?_, by decide⟩
  · intro e sc he
    simp [is_retryable, he]
  · intro c
    simp [is_retryable]

/-- C8 witness: the amended theorem applied at a concrete network error. -/
theorem C8_witness : is_retryable (some .requestError) none = true :=
  C8_is_retryable_characterization.1 .requestError none rfl

/-- One failure recorded on a CLOSED breaker with fewer than four failures
counted, within the window of the previous failure: the count increments and
the state stays CLOSED. -/
theorem record_failure_closed_step (fc : Nat) (u now : Int)
    (hc : fc + 1 < FAILURE_THRESHOLD) (hw : now - u ≤ WINDOW_SECONDS) :
    record_failure ⟨.CLOSED, fc, some u, none⟩ now =
      ⟨.CLOSED, fc + 1, some now, none⟩ := by
  have hng : ¬ (now - u > WINDOW_SECONDS) := by omega
  have h5 : ¬ (fc + 1 ≥ FAILURE_THRESHOLD) := by omega
  simp [record_failure, _get_state_locked, hng, h5]

/-- The failure that reaches the threshold on a CLOSED breaker within the
window: the breaker opens with `opened_at = now`. -/
theorem record_failure_closed_opens (fc : Nat) (u now : Int)
    (hc : fc + 1 ≥ FAILURE_THRESHOLD) (hw : now - u ≤ WINDOW_SECONDS) :
    record_failure ⟨.CLOSED, fc, some u, none⟩ now =
      ⟨.OPEN, fc + 1, some now, some now⟩ := by
  have hng : ¬ (now - u > WINDOW_SECONDS) := by omega
  have hcd : ¬ (COOLDOWN_SECONDS ≤ (0 : Int)) := by
    simp [COOLDOWN_SECONDS]
  simp [record_failure, _get_state_locked, hng, hc, hcd]

/-- C3. The circuit-breaker lifecycle: (i) from a fresh CLOSED breaker, four
`record_failure` calls within the window leave `can_attempt` true; (ii) the
fifth consecutive failure opens the breaker and `can_attempt` is false while
the cooldown has not elapsed; (iii) once 60 seconds have passed since
opening, the next `can_attempt` moves the breaker to HALF_OPEN and returns
true; (iv) a `record_failure` while HALF_OPEN returns the breaker to OPEN;
(v) `record_success` from any state returns it to CLOSED with the failure
count reset to 0. -/
theorem C3_circuit_breaker_lifecycle :
    (∀ t1 t2 t3 t4 t5 t : Int,
      t2 - t1 ≤ WINDOW_SECONDS → t3 - t2 ≤ WINDOW_SECONDS →
      t4 - t3 ≤ WINDOW_SECONDS → t5 - t4 ≤ WINDOW_SECONDS →
      t - t5 < COOLDOWN_SECONDS →
      (can_attempt (record_failure (record_failure (record_failure
        (record_failure CircuitBreaker.init t1) t2) t3) t4) t).1 = true ∧
      (record_failure (record_failure (record_failure (record_failure
        (record_failure CircuitBreaker.init t1) t2) t3) t4) t5).state = .OPEN ∧
      (can_attempt (record_failure (record_failure (record_failure (record_failure
        (record_failure CircuitBreaker.init t1) t2) t3) t4) t5) t).1 = false) ∧
    (∀ (cb : CircuitBreaker) (t0 t : Int),
      cb.state = .OPEN → cb.opened_at = some t0 → t - t0 ≥ COOLDOWN_SECONDS →
      (can_attempt cb t).1 = true ∧ (can_attempt cb t).2.state = .HALF_OPEN) ∧
    (∀ (cb : CircuitBreaker) (t : Int),
      cb.state = .HALF_OPEN →
      (record_failure cb t).state = .OPEN ∧ (record_failure cb t).opened_at = some t) ∧
    (∀ cb : CircuitBreaker,
      (record_success cb).state = .CLOSED ∧ (record_success cb).failure_count = 0) := by
  refine ⟨?_, ?_, ?_, ?_⟩
  · intro t1 t2 t3 t4 t5 t h12 h23 h34 h45 ht
    have s1 : record_failure CircuitBreaker.init t1 = ⟨.CLOSED, 1, some t1, none⟩ := by
      simp [record_failure, _get_state_locked, CircuitBreaker.init, FAILURE_THRESHOLD]
    have s2 := record_failure_closed_step 1 t1 t2 (by decide) h12
    have s3 := record_failure_closed_step 2 t2 t3 (by decide) h23
    have s4 := record_failure_closed_step 3 t3 t4 (by decide) h34
    have s5 := record_failure_closed_opens 4 t4 t5 (by decide) h45
    rw [s1, s2, s3, s4]
    have hn : ¬ (t - t5 ≥ COOLDOWN_SECONDS) := by omega
    refine ⟨by simp [can_attempt, _get_state_locked], ?_, ?_⟩
    · rw [s5]
    · rw [s5]
      simp [can_attempt, _get_state_locked, hn]
  · intro cb t0 t hs ho ht
    obtain ⟨s, fc, lft, oa⟩ := cb
    simp only at hs ho
    subst hs; subst ho
    simp [can_attempt, _get_state_locked, ht]
  · intro cb t hs
    obtain ⟨s, fc, lft, oa⟩ := cb
    simp only at hs
    subst hs
    have hcd : ¬ (COOLDOWN_SECONDS ≤ (0 : Int)) := by
      simp [COOLDOWN_SECONDS]
    rcases lft with _ | u
    · by_cases h5 : fc + 1 ≥ FAILURE_THRESHOLD
      · simp [record_failure, _get_state_locked, h5, hcd]
      · simp [record_failure, _get_state_locked, h5, hcd]
    · by_cases hw : t - u > WINDOW_SECONDS
      · have h1 : ¬ ((0 : Nat) + 1 ≥ FAILURE_THRESHOLD) := by
          simp [FAILURE_THRESHOLD]
        simp [record_failure, _get_state_locked, hw, h1, hcd]
      · by_cases h5 : fc + 1 ≥ FAILURE_THRESHOLD
        · simp [record_failure, _get_state_locked, hw, h5, hcd]
        · simp [record_failure, _get_state_locked, hw, h5, hcd]
  · intro cb
    exact ⟨rfl, rfl⟩

/-- C3 witness: the lifecycle theorem instantiated at failures recorded at
times 0, 10, 20, 30, 40 and a query at time 50. -/
theorem C3_witness :
    (can_attempt (record_failure (record_failure (record_failure
      (record_failure CircuitBreaker.init 0) 10) 20) 30) 50).1 = true ∧
    (record_failure (record_failure (record_failure (record_failure
      (record_failure CircuitBreaker.init 0) 10) 20) 30) 40).state = .OPEN ∧
    (can_attempt (record_failure (record_failure (record_failure (record_failure
      (record_failure CircuitBreaker.init 0) 10) 20) 30) 40) 50).1 = false :=
  C3_circuit_breaker_lifecycle.1 0 10 20 30 40 50 (by decide) (by decide)
    (by decide) (by decide) (by decide)

/-! ### C9: `get_status` as a read -/

/-- C9 counterexample. The claim says `get_status` leaves the breaker's
state unchanged for every state, but `get_status` reads the state through
`_get_state_locked`, which rewrites an OPEN state whose cooldown has elapsed
to HALF_OPEN: on an OPEN breaker opened at time 0, `get_status` at time 60
changes the stored state to HALF_OPEN. -/
theorem C9_counterexample :
    (get_status ⟨.OPEN, 5, some 0, some 0⟩ 60).2.state = .HALF_OPEN ∧
    CircuitState.HALF_OPEN ≠ .OPEN := by
  decide

/-- C9 (amended). `get_status` never changes the failure count, the
last-failure timestamp or the opened-at timestamp, and leaves the stored
state unchanged except for applying the lazy OPEN → HALF_OPEN cooldown
transition (the same transition any state read performs): the state is
unchanged unless the breaker was OPEN with its cooldown elapsed, in which
case it becomes HALF_OPEN. -/
theorem C9_get_status_effect (cb : CircuitBreaker) (now : Int) :
    ((get_status cb now).2.failure_count = cb.failure_count ∧
      (get_status cb now).2.last_failure_time = cb.last_failure_time ∧
      (get_status cb now).2.opened_at = cb.opened_at) ∧
    ((get_status cb now).2.state = cb.state ∨
      (cb.state = .OPEN ∧ (get_status cb now).2.state = .HALF_OPEN ∧
        ∃ t, cb.opened_at = some t ∧ now - t ≥ COOLDOWN_SECONDS)) := by
  obtain ⟨s, fc, lft, oa⟩ := cb
  rcases s <;> rcases oa with _ | t
  · exact ⟨⟨rfl, rfl, rfl⟩, Or.inl rfl⟩
  · exact ⟨⟨rfl, rfl, rfl⟩, Or.inl rfl⟩
  · exact ⟨⟨rfl, rfl, rfl⟩, Or.inl rfl⟩
  · by_cases h : now - t ≥ COOLDOWN_SECONDS
    · have e : get_status ⟨.OPEN, fc, lft, some t⟩ now =
          (⟨.HALF_OPEN, fc, FAILURE_THRESHOLD, COOLDOWN_SECONDS, some t⟩,
            ⟨.HALF_OPEN, fc, lft, some t⟩) := by
        simp [get_status, _get_state_locked, h]
      rw [e]
      exact ⟨⟨rfl, rfl, rfl⟩, Or.inr ⟨rfl, rfl, t, rfl, h⟩⟩
    · have e : get_status ⟨.OPEN, fc, lft, some t⟩ now =
          (⟨.OPEN, fc, FAILURE_THRESHOLD, COOLDOWN_SECONDS, some t⟩,
            ⟨.OPEN, fc, lft, some t⟩) := by
        simp [get_status, _get_state_locked, h]
      rw [e]
      exact ⟨⟨rfl, rfl, rfl⟩, Or.inl rfl⟩
  · exact ⟨⟨rfl, rfl, rfl⟩, Or.inl rfl⟩
  · exact ⟨⟨rfl, rfl, rfl⟩, Or.inl rfl⟩

/-! ### C2: terminal immutability -/

/-- C2 counterexample. The claim quantifies over orchestrator background
writes as well, but those call `VideoTaskService.update_task_status`, which
writes unconditionally: the orchestrator's intermediate
`update_task_status(task_id, processing, progress=...)` write
(`process_runway_task`), applied to a job already `cancelled` (the
cancellation cooperatively observed only at the next poll checkpoint),
moves the terminal status back to `processing`. -/
theorem C2_counterexample :
    (update_task_status_db ⟨cancelled, 0, none, none⟩ processing (some 42) none none).status
        = processing ∧
    processing ≠ cancelled := by
  decide

/-- C2 (amended). Once a job's status is terminal, it never changes under
the *validated* operations (the `PATCH /status` endpoint and the cancel
endpoint): both reject with `ILLEGAL_STATE_TRANSITION`, and any sequence of
such API operations leaves the status at its terminal value.  Orchestrator
background writes bypass validation and are excluded (see the
counterexample). -/
theorem C2_terminal_immutable_via_api (job : Job) (h : isTerminal job.status = true) :
    (∀ req, update_task_status_route job req = .illegal_transition) ∧
    cancel_video_task_route job = .illegal_transition ∧
    ∀ ops : List JobOp, (∀ op ∈ ops, op.isApi = true) →
      (ops.foldl applyJobOp job).status = job.status := by
  have hvt : ∀ x, validate_transition job.status x = false := by
    intro x
    rcases hs : job.status <;> simp [hs, isTerminal] at h <;>
      simp [validate_transition, ALLOWED_TRANSITIONS]
  refine ⟨?_, ?_, ?_⟩
  · intro req
    simp [update_task_status_route, hvt]
  · simp [cancel_video_task_route, hvt]
  · intro ops
    induction ops with
    | nil => intro _; rfl
    | cons op rest ih =>
      intro hops
      have hop : op.isApi = true := hops op (by simp)
      have hfix : applyJobOp job op = job := by
        cases op with
        | apiUpdate req => simp [applyJobOp, update_task_status_route, hvt]
        | apiCancel => simp [applyJobOp, cancel_video_task_route, hvt]
        | orchWrite s p v e => simp [JobOp.isApi] at hop
      rw [List.foldl_cons, hfix]
      exact ih (fun o ho => hops o (by simp [ho]))

/-- C2 witness: a completed job, hit by a cancel call and a forced
`processing` update through the API, keeps status `completed`. -/
theorem C2_witness :
    ([JobOp.apiCancel, JobOp.apiUpdate ⟨processing, some 10, none, none⟩].foldl
        applyJobOp ⟨completed, 100, some "https://example.com/v.mp4", none⟩).status
      = completed :=
  (C2_terminal_immutable_via_api ⟨completed, 100, some "https://example.com/v.mp4", none⟩
    (by decide)).2.2 _ (by decide)

/-! ### C6: circuit-open fast failure -/

/-- C6. Whenever the circuit breaker does not permit an attempt
(`can_attempt` false, i.e. OPEN), both `create_image_to_video_task` and
`get_task_status` fail immediately with the `ENGINE_CIRCUIT_OPEN` error
code, and the count of network calls issued is zero. -/
theorem C6_circuit_open_no_network_call (cb : CircuitBreaker) (now : Int)
    (envC : List CreateNetResponse) (envP : List PollNetResponse) (tid : String)
    (h : (can_attempt cb now).1 = false) :
    (create_image_to_video_task cb now envC).1 =
        .error ⟨none, .ENGINE_CIRCUIT_OPEN⟩ ∧
    (create_image_to_video_task cb now envC).2.2 = 0 ∧
    (get_task_status tid cb now envP).1 = .apiError ⟨none, .ENGINE_CIRCUIT_OPEN⟩ ∧
    (get_task_status tid cb now envP).2.2 = 0 := by
  refine ⟨?_, ?_, ?_, ?_⟩ <;>
    simp [create_image_to_video_task, get_task_status, h, mkRunwayAPIError]

/-- C6 witness: an OPEN breaker (5 failures, opened at time 0) queried at
time 10 rejects both calls with `ENGINE_CIRCUIT_OPEN` and zero calls. -/
theorem C6_witness :
    (create_image_to_video_task ⟨.OPEN, 5, some 0, some 0⟩ 10 []).1 =
        .error ⟨none, .ENGINE_CIRCUIT_OPEN⟩ ∧
    (create_image_to_video_task ⟨.OPEN, 5, some 0, some 0⟩ 10 []).2.2 = 0 ∧
    (get_task_status "rw_1" ⟨.OPEN, 5, some 0, some 0⟩ 10 []).1 =
        .apiError ⟨none, .ENGINE_CIRCUIT_OPEN⟩ ∧
    (get_task_status "rw_1" ⟨.OPEN, 5, some 0, some 0⟩ 10 []).2.2 = 0 :=
  C6_circuit_open_no_network_call ⟨.OPEN, 5, some 0, some 0⟩ 10 [] [] "rw_1" (by decide)

/-! ### C1: idempotent creation -/

set_option maxRecDepth 200000 in
/-- C1 (code bug).  For a user and key already bound to a job within the
TTL, the guard logic of `check_idempotency` itself would return the bound
task on a matching payload hash and flag a mismatch on a differing payload
— but the route calls it without `await`, so any create request carrying an
`Idempotency-Key` fails with an `AttributeError` (HTTP 500): it neither
returns the bound job nor a 409 conflict, and the idempotency store is never
consulted nor updated. -/
theorem C1_idempotent_create_route_bug :
    create_video_task ⟨"T", "p", none, .mock, none⟩ (some "k1")
        [⟨"u1", "k1", _hash_payload ⟨"T", "p", "mock"⟩, some "vt_1", 0⟩] "vt_2" 3600 =
      (.serverError "AttributeError: coroutine object has no attribute mismatch",
        [⟨"u1", "k1", _hash_payload ⟨"T", "p", "mock"⟩, some "vt_1", 0⟩], 0) ∧
    check_idempotency [⟨"u1", "k1", _hash_payload ⟨"T", "p", "mock"⟩, some "vt_1", 0⟩]
        "u1" "k1" ⟨"T", "p", "mock"⟩ 3600 = ⟨true, some "vt_1", false⟩ ∧
    check_idempotency [⟨"u1", "k1", _hash_payload ⟨"T", "p", "mock"⟩, some "vt_1", 0⟩]
        "u1" "k1" ⟨"T2", "p", "mock"⟩ 3600 = ⟨false, none, true⟩ := by
  refine ⟨rfl, ?_, ?_⟩ <;> decide

/-! ### C10: the payload hash covers only title, prompt and engine -/

/-- C10. Two create requests by the same user agreeing on `title`, `prompt`
and `engine` produce the same idempotency payload and thus the same hash —
even when `sourceImageUrl` or `params` differ — so `check_idempotency`
makes the same dedup-versus-conflict decision for both, and against a
record written for the first request the second can never be flagged a
mismatch. -/
theorem C10_hash_only_title_prompt_engine
    (r1 r2 : CreateVideoTaskRequest)
    (ht : r1.title = r2.title) (hp : r1.prompt = r2.prompt) (he : r1.engine = r2.engine) :
    create_payload r1 = create_payload r2 ∧
    _hash_payload (create_payload r1) = _hash_payload (create_payload r2) ∧
    (∀ store user key now,
      check_idempotency store user key (create_payload r1) now =
        check_idempotency store user key (create_payload r2) now) ∧
    (∀ (user key : String) (tid : Option String) (t now : Int),
      t ≥ ttlCutoff now →
      (check_idempotency [⟨user, key, _hash_payload (create_payload r1), tid, t⟩]
          user key (create_payload r2) now).mismatch = false) := by
  have hpl : create_payload r1 = create_payload r2 := by
    simp [create_payload, ht, hp, he]
  refine ⟨hpl, by rw [hpl], fun store user key now => by rw [hpl], ?_⟩
  intro user key tid t now hcut
  rw [hpl]
  simp [check_idempotency, lookupIdempotencyRecord, hcut]

/-- C10 witness: two requests sharing title/prompt/engine but differing in
both `sourceImageUrl` and `params` get the same idempotency decision, and
the second is not a conflict against the record of the first. -/
theorem C10_witness :
    (check_idempotency [] "u" "k"
        (create_payload ⟨"T", "p", some "https://img/a.png", .mock, none⟩) 0 =
      check_idempotency [] "u" "k"
        (create_payload ⟨"T", "p", none, .mock, some ⟨8, "16:9"⟩⟩) 0) ∧
    (check_idempotency
        [⟨"u", "k", _hash_payload (create_payload ⟨"T", "p", some "https://img/a.png", .mock, none⟩),
          some "vt_1", 0⟩]
        "u" "k" (create_payload ⟨"T", "p", none, .mock, some ⟨8, "16:9"⟩⟩) 0).mismatch = false :=
  ⟨(C10_hash_only_title_prompt_engine _ _ rfl rfl rfl).2.2.1 [] "u" "k" 0,
   (C10_hash_only_title_prompt_engine _ _ rfl rfl rfl).2.2.2 "u" "k" (some "vt_1") 0 0 (by decide)⟩

theorem char_toNat_valid (c : Char) :
    c.toNat < 55296 ∨ (57343 < c.toNat ∧ c.toNat < 1114112) := c.valid

theorem utf8DecodeAux_encodeChar_cons (c : Char) (bs : List Nat) (fuel : Nat) :
    utf8DecodeAux (fuel + 1) (utf8EncodeChar c ++ bs) =
      (utf8DecodeAux fuel bs).map (fun cs => c :: cs) := by
  have hval := char_toNat_valid c
  rcases Nat.lt_or_ge c.toNat 128 with h1 | h1
  · have he : utf8EncodeChar c = [c.toNat] := by
      unfold utf8EncodeChar
      rw [if_pos h1]
    rw [he, List.cons_append, List.nil_append]
    cases bs with
    | nil => rw [utf8DecodeAux.eq_4, if_pos h1, Char.ofNat_toNat]
    | cons b1 bs' => rw [utf8DecodeAux.eq_3, if_pos h1, Char.ofNat_toNat]
  · rcases Nat.lt_or_ge c.toNat 2048 with h2 | h2
    · have he : utf8EncodeChar c = [192 + c.toNat / 64, 128 + c.toNat % 64] := by
        unfold utf8EncodeChar
        rw [if_neg (by omega), if_pos h2]
      rw [he, List.cons_append, List.cons_append, List.nil_append,
        utf8DecodeAux.eq_3, if_neg (by omega), if_neg (by omega), if_pos (by omega),
        if_pos (by omega : 128 ≤ 128 + c.toNat % 64 ∧ 128 + c.toNat % 64 < 192)]
      have hv : (192 + c.toNat / 64 - 192) * 64 + (128 + c.toNat % 64 - 128) = c.toNat := by
        omega
      rw [hv, Char.ofNat_toNat]
    · rcases Nat.lt_or_ge c.toNat 65536 with h3 | h3
      · have he : utf8EncodeChar c =
            [224 + c.toNat / 4096, 128 + c.toNat / 64 % 64, 128 + c.toNat % 64] := by
          unfold utf8EncodeChar
          rw [if_neg (by omega), if_neg (by omega), if_pos h3]
        rw [he, List.cons_append, List.cons_append, List.cons_append, List.nil_append,
          utf8DecodeAux.eq_3, if_neg (by omega), if_neg (by omega), if_neg (by omega),
          if_pos (by omega)]
        simp only []
        rw [if_pos (by omega :
          (128 ≤ 128 + c.toNat / 64 % 64 ∧ 128 + c.toNat / 64 % 64 < 192) ∧
          (128 ≤ 128 + c.toNat % 64 ∧ 128 + c.toNat % 64 < 192))]
        have hv : (224 + c.toNat / 4096 - 224) * 4096 + (128 + c.toNat / 64 % 64 - 128) * 64 +
            (128 + c.toNat % 64 - 128) = c.toNat := by omega
        rw [hv, Char.ofNat_toNat]
      · have hup : c.toNat < 1114112 := by omega
        have he : utf8EncodeChar c =
            [240 + c.toNat / 262144, 128 + c.toNat / 4096 % 64,
             128 + c.toNat / 64 % 64, 128 + c.toNat % 64] := by
          unfold utf8EncodeChar
          rw [if_neg (by omega), if_neg (by omega), if_neg (by omega)]
        rw [he, List.cons_append, List.cons_append, List.cons_append, List.cons_append,
          List.nil_append, utf8DecodeAux.eq_3, if_neg (by omega), if_neg (by omega),
          if_neg (by omega), if_neg (by omega), if_pos (by omega)]
        simp only []
        rw [if_pos (by omega :
          (128 ≤ 128 + c.toNat / 4096 % 64 ∧ 128 + c.toNat / 4096 % 64 < 192) ∧
          (128 ≤ 128 + c.toNat / 64 % 64 ∧ 128 + c.toNat / 64 % 64 < 192) ∧
          (128 ≤ 128 + c.toNat % 64 ∧ 128 + c.toNat % 64 < 192))]
        have hv : (240 + c.toNat / 262144 - 240) * 262144 +
            (128 + c.toNat / 4096 % 64 - 128) * 4096 +
            (128 + c.toNat / 64 % 64 - 128) * 64 + (128 + c.toNat % 64 - 128) = c.toNat := by
          omega
        rw [hv, Char.ofNat_toNat]

theorem utf8DecodeAux_encode (cs : List Char) :
    ∀ fuel, cs.length ≤ fuel → utf8DecodeAux fuel (utf8Encode cs) = some cs := by
  induction cs with
  | nil =>
    intro fuel _
    cases fuel <;> rfl
  | cons c rest ih =>
    intro fuel hf
    obtain ⟨f, rfl⟩ : ∃ f, fuel = f + 1 := by
      cases fuel
      · simp at hf
      · exact ⟨_, rfl⟩
    have hsplit : utf8Encode (c :: rest) = utf8EncodeChar c ++ utf8Encode rest := by
      simp [utf8Encode]
    rw [hsplit, utf8DecodeAux_encodeChar_cons, ih f (by simp at hf; omega)]
    rfl

theorem utf8EncodeChar_length_pos (c : Char) : 1 ≤ (utf8EncodeChar c).length := by
  unfold utf8EncodeChar
  split_ifs <;> simp

theorem utf8_roundtrip (cs : List Char) : utf8Decode (utf8Encode cs) = some cs := by
  have hlen : cs.length ≤ (utf8Encode cs).length := by
    induction cs with
    | nil => simp [utf8Encode]
    | cons c rest ih =>
      have := utf8EncodeChar_length_pos c
      simp only [utf8Encode, List.map_cons, List.flatten_cons, List.length_append,
        List.length_cons]
      simp only [utf8Encode] at ih
      omega
  exact utf8DecodeAux_encode cs (utf8Encode cs).length hlen

theorem utf8Encode_lt_256 (cs : List Char) : ∀ b ∈ utf8Encode cs, b < 256 := by
  intro b hb
  simp only [utf8Encode, List.mem_flatten, List.mem_map] at hb
  obtain ⟨l, ⟨c, _, rfl⟩, hbl⟩ := hb
  have hval := char_toNat_valid c
  simp only [utf8EncodeChar] at hbl
  split_ifs at hbl <;> simp_all <;> omega

theorem b64DecChar_encChar (i : Nat) (h : i < 64) : b64DecChar (b64EncChar i) = some i := by
  interval_cases i <;> decide

theorem b64EncChar_ne_pad (i : Nat) (h : i < 64) : b64EncChar i ≠ '=' := by
  interval_cases i <;> decide

theorem b64_roundtrip : ∀ bs : List Nat, (∀ b ∈ bs, b < 256) →
    b64Decode (b64Encode bs) = some bs
  | [], _ => rfl
  | [a], h => by
    have ha : a < 256 := h a (by simp)
    rw [b64Encode, b64Decode, b64DecChar_encChar _ (by omega), b64DecChar_encChar _ (by omega)]
    simp only [if_pos rfl, and_self, ite_true]
    have : a / 4 * 4 + a % 4 * 16 / 16 = a := by omega
    rw [this]
  | [a, b], h => by
    have ha : a < 256 := h a (by simp)
    have hb : b < 256 := h b (by simp)
    rw [b64Encode, b64Decode, b64DecChar_encChar _ (by omega), b64DecChar_encChar _ (by omega)]
    simp only []
    rw [if_neg (b64EncChar_ne_pad _ (by omega)), b64DecChar_encChar _ (by omega)]
    simp only [if_pos rfl, ite_true]
    have e1 : a / 4 * 4 + (a % 4 * 16 + b / 16) / 16 = a := by omega
    have e2 : (a % 4 * 16 + b / 16) % 16 * 16 + b % 16 * 4 / 4 = b := by omega
    rw [e1, e2]
  | a :: b :: c :: rest, h => by
    have ha : a < 256 := h a (by simp)
    have hb : b < 256 := h b (by simp)
    have hc : c < 256 := h c (by simp)
    have ih := b64_roundtrip rest (fun x hx => h x (by simp [hx]))
    rw [b64Encode, b64Decode, b64DecChar_encChar _ (by omega), b64DecChar_encChar _ (by omega)]
    simp only []
    rw [if_neg (b64EncChar_ne_pad _ (by omega)), b64DecChar_encChar _ (by omega)]
    simp only []
    rw [if_neg (b64EncChar_ne_pad _ (by omega)), b64DecChar_encChar _ (by omega)]
    simp only []
    rw [ih]
    have e1 : a / 4 * 4 + (a % 4 * 16 + b / 16) / 16 = a := by omega
    have e2 : (a % 4 * 16 + b / 16) % 16 * 16 + (b % 16 * 4 + c / 64) / 4 = b := by omega
    have e3 : (b % 16 * 4 + c / 64) % 4 * 64 + c % 64 = c := by omega
    rw [e1, e2, e3]
    rfl

theorem splitPipe_ne_nil (cs : List Char) : splitPipe cs ≠ [] := by
  induction cs with
  | nil => simp [splitPipe]
  | cons c rest ih =>
    rw [splitPipe]
    split_ifs
    · simp
    · match h : splitPipe rest with
      | _ :: _ => simp
      | [] => simp

theorem splitPipe_no_pipe (a : List Char) (ha : '|' ∉ a) : splitPipe a = [a] := by
  induction a with
  | nil => rfl
  | cons c rest ih =>
    have hc : c ≠ '|' := fun h => ha (by simp [h])
    have hrest : '|' ∉ rest := fun h => ha (by simp [h])
    rw [splitPipe, if_neg hc, ih hrest]

theorem splitPipe_append_pipe (a rest : List Char) (ha : '|' ∉ a) :
    splitPipe (a ++ '|' :: rest) = a :: splitPipe rest := by
  induction a with
  | nil => simp [splitPipe]
  | cons c a' ih =>
    have hc : c ≠ '|' := fun h => ha (by simp [h])
    have ha' : '|' ∉ a' := fun h => ha (by simp [h])
    rw [List.cons_append, splitPipe, if_neg hc, ih ha']

/-! ### Round trip of `safe_parse_datetime` over `isoformat` -/

theorem parseDigit_hexChar : ∀ k, k < 10 → parseDigit (hexChar k) = some k := by
  decide

theorem isDigitChar_hexChar : ∀ k, k < 10 → isDigitChar (hexChar k) = true := by
  decide

theorem hexChar_ne_Z : ∀ k, k < 10 → hexChar k ≠ 'Z' := by
  decide

theorem hexChar_ne_pipe : ∀ k, k < 10 → hexChar k ≠ '|' := by
  decide

theorem mem_pad2 (n : Nat) : ∀ c ∈ pad2 n, ∃ k, k < 10 ∧ c = hexChar k := by
  intro c hc
  simp only [pad2, List.mem_cons, List.not_mem_nil, or_false] at hc
  rcases hc with h | h <;> exact ⟨_, Nat.mod_lt _ (by omega), h⟩

theorem mem_pad4 (n : Nat) : ∀ c ∈ pad4 n, ∃ k, k < 10 ∧ c = hexChar k := by
  intro c hc
  simp only [pad4, List.mem_cons, List.not_mem_nil, or_false] at hc
  rcases hc with h | h | h | h <;> exact ⟨_, Nat.mod_lt _ (by omega), h⟩

theorem mem_pad6 (n : Nat) : ∀ c ∈ pad6 n, ∃ k, k < 10 ∧ c = hexChar k := by
  intro c hc
  simp only [pad6, List.mem_cons, List.not_mem_nil, or_false] at hc
  rcases hc with h | h | h | h | h | h <;> exact ⟨_, Nat.mod_lt _ (by omega), h⟩

theorem replaceZ_id (cs : List Char) (h : 'Z' ∉ cs) : replaceZ cs = cs := by
  induction cs with
  | nil => rfl
  | cons c rest ih =>
    have hc : c ≠ 'Z' := fun he => h (by simp [he])
    have hr : 'Z' ∉ rest := fun he => h (by simp [he])
    simp only [replaceZ, List.map_cons, List.flatten_cons, if_neg hc]
    rw [List.singleton_append]
    have := ih hr
    simp only [replaceZ] at this
    rw [this]

theorem takeWhile_digits_stop (xs : List Char) (y : Char) (ys : List Char)
    (hxs : ∀ x ∈ xs, isDigitChar x = true) (hy : isDigitChar y = false) :
    (xs ++ y :: ys).takeWhile isDigitChar = xs := by
  induction xs with
  | nil => simp [List.takeWhile_cons, hy]
  | cons x xs' ih =>
    have hx : isDigitChar x = true := hxs x (by simp)
    rw [List.cons_append, List.takeWhile_cons, hx]
    simp only [ite_true]
    rw [ih (fun a ha => hxs a (by simp [ha]))]

theorem utcSuffix_length : utcSuffix.length = 6 := rfl

theorem tzShape_utcSuffix : tzShape utcSuffix = true := by decide

theorem fixFraction_no_dot (P : List Char) (c : Char) (ds : List Char)
    (hds : ∀ x ∈ ds, isDigitChar x = true) (hc : isDigitChar c = false) (hcd : c ≠ '.') :
    fixFraction (P ++ c :: ds ++ utcSuffix) = P ++ c :: ds ++ utcSuffix := by
  have hshape : P ++ c :: ds ++ utcSuffix = (P ++ c :: ds) ++ utcSuffix := by
    simp [List.append_assoc]
  rw [hshape]
  have hlen : ((P ++ c :: ds) ++ utcSuffix).length - 6 = (P ++ c :: ds).length := by
    simp only [List.length_append, List.length_cons, utcSuffix_length]
    omega
  have hge : ¬ (((P ++ c :: ds) ++ utcSuffix).length < 6) := by
    simp only [List.length_append, List.length_cons, utcSuffix_length]
    omega
  have htw : ((P ++ c :: ds).reverse.takeWhile isDigitChar) = ds.reverse := by
    have hrev : (P ++ c :: ds).reverse = ds.reverse ++ c :: P.reverse := by simp
    rw [hrev, takeWhile_digits_stop _ _ _ (fun a ha => hds a (List.mem_reverse.mp ha)) hc]
  have htake : (P ++ c :: ds).take ((P ++ c :: ds).length - ds.length) = P ++ [c] := by
    have hs2 : P ++ c :: ds = (P ++ [c]) ++ ds := by simp
    rw [hs2]
    have hl2 : ((P ++ [c]) ++ ds).length - ds.length = (P ++ [c]).length := by
      simp only [List.length_append, List.length_cons, List.length_nil]
      omega
    rw [hl2, List.take_left]
  have hlast : (P ++ [c]).getLast? = some c := by
    simp [List.getLast?_concat]
  simp only [fixFraction]
  rw [if_neg hge, hlen, List.drop_left, List.take_left, if_pos tzShape_utcSuffix,
    htw, List.reverse_reverse, htake, hlast]
  rw [if_neg]
  intro hcond
  exact hcd (Option.some.inj hcond.2.2)

theorem fixFraction_frac6 (Q : List Char) (ds : List Char)
    (hds : ∀ x ∈ ds, isDigitChar x = true) (hlen6 : ds.length = 6) (hQ : Q ≠ []) :
    fixFraction (Q ++ '.' :: ds ++ utcSuffix) = Q ++ '.' :: ds ++ utcSuffix := by
  have hshape : Q ++ '.' :: ds ++ utcSuffix = (Q ++ '.' :: ds) ++ utcSuffix := by
    simp [List.append_assoc]
  rw [hshape]
  have hlen : ((Q ++ '.' :: ds) ++ utcSuffix).length - 6 = (Q ++ '.' :: ds).length := by
    simp only [List.length_append, List.length_cons, utcSuffix_length]
    omega
  have hge : ¬ (((Q ++ '.' :: ds) ++ utcSuffix).length < 6) := by
    simp only [List.length_append, List.length_cons, utcSuffix_length]
    omega
  have hdot : isDigitChar '.' = false := by decide
  have htw : ((Q ++ '.' :: ds).reverse.takeWhile isDigitChar) = ds.reverse := by
    have hrev : (Q ++ '.' :: ds).reverse = ds.reverse ++ '.' :: Q.reverse := by simp
    rw [hrev, takeWhile_digits_stop _ _ _ (fun a ha => hds a (List.mem_reverse.mp ha)) hdot]
  have htake : (Q ++ '.' :: ds).take ((Q ++ '.' :: ds).length - ds.length) = Q ++ ['.'] := by
    have hs2 : Q ++ '.' :: ds = (Q ++ ['.']) ++ ds := by simp
    rw [hs2]
    have hl2 : ((Q ++ ['.']) ++ ds).length - ds.length = (Q ++ ['.']).length := by
      simp only [List.length_append, List.length_cons, List.length_nil]
      omega
    rw [hl2, List.take_left]
  have hlast : (Q ++ ['.']).getLast? = some '.' := by simp [List.getLast?_concat]
  simp only [fixFraction]
  rw [if_neg hge, hlen, List.drop_left, List.take_left, if_pos tzShape_utcSuffix,
    htw, List.reverse_reverse, htake, hlast]
  rw [if_pos]
  · have hkeep : ds.take 6 = ds := by
      rw [← hlen6, List.take_length]
    rw [hkeep, hlen6]
    simp
  · refine ⟨by omega, ?_, rfl⟩
    have hq1 : Q.length ≥ 1 := by
      cases Q with
      | nil => exact absurd rfl hQ
      | cons _ _ => simp
    simp only [List.length_append, List.length_cons, List.length_nil]
    omega

theorem pad2_digits (n : Nat) : ∀ x ∈ pad2 n, isDigitChar x = true := by
  intro x hx
  obtain ⟨k, hk, rfl⟩ := mem_pad2 n x hx
  exact isDigitChar_hexChar k hk

theorem pad6_digits (n : Nat) : ∀ x ∈ pad6 n, isDigitChar x = true := by
  intro x hx
  obtain ⟨k, hk, rfl⟩ := mem_pad6 n x hx
  exact isDigitChar_hexChar k hk

theorem notMem_pad2 (x : Char) (hx : ∀ k, k < 10 → hexChar k ≠ x) (n : Nat) :
    x ∉ pad2 n := by
  intro hmem
  obtain ⟨k, hk, he⟩ := mem_pad2 n x hmem
  exact hx k hk he.symm

theorem notMem_pad4 (x : Char) (hx : ∀ k, k < 10 → hexChar k ≠ x) (n : Nat) :
    x ∉ pad4 n := by
  intro hmem
  obtain ⟨k, hk, he⟩ := mem_pad4 n x hmem
  exact hx k hk he.symm

theorem notMem_pad6 (x : Char) (hx : ∀ k, k < 10 → hexChar k ≠ x) (n : Nat) :
    x ∉ pad6 n := by
  intro hmem
  obtain ⟨k, hk, he⟩ := mem_pad6 n x hmem
  exact hx k hk he.symm

theorem isoformat_no_Z (d : DateTime) : 'Z' ∉ (DateTime.isoformat d).data := by
  have h4 := notMem_pad4 'Z' hexChar_ne_Z d.year
  have hmo := notMem_pad2 'Z' hexChar_ne_Z d.month
  have hda := notMem_pad2 'Z' hexChar_ne_Z d.day
  have hh := notMem_pad2 'Z' hexChar_ne_Z d.hour
  have hmi := notMem_pad2 'Z' hexChar_ne_Z d.minute
  have hs := notMem_pad2 'Z' hexChar_ne_Z d.second
  have h6 := notMem_pad6 'Z' hexChar_ne_Z d.microsecond
  by_cases hms : d.microsecond = 0 <;>
    simp [DateTime.isoformat, hms, utcSuffix, h4, hmo, hda, hh, hmi, hs, h6]

theorem isoformat_no_pipe (d : DateTime) : '|' ∉ (DateTime.isoformat d).data := by
  have h4 := notMem_pad4 '|' hexChar_ne_pipe d.year
  have hmo := notMem_pad2 '|' hexChar_ne_pipe d.month
  have hda := notMem_pad2 '|' hexChar_ne_pipe d.day
  have hh := notMem_pad2 '|' hexChar_ne_pipe d.hour
  have hmi := notMem_pad2 '|' hexChar_ne_pipe d.minute
  have hs := notMem_pad2 '|' hexChar_ne_pipe d.second
  have h6 := notMem_pad6 '|' hexChar_ne_pipe d.microsecond
  by_cases hms : d.microsecond = 0 <;>
    simp [DateTime.isoformat, hms, utcSuffix, h4, hmo, hda, hh, hmi, hs, h6]

theorem fixFraction_isoformat (d : DateTime) :
    fixFraction (DateTime.isoformat d).data = (DateTime.isoformat d).data := by
  by_cases hms : d.microsecond = 0
  · have hshape : (DateTime.isoformat d).data =
        (pad4 d.year ++ '-' :: pad2 d.month ++ '-' :: pad2 d.day ++ 'T' :: pad2 d.hour
          ++ ':' :: pad2 d.minute) ++ ':' :: pad2 d.second ++ utcSuffix := by
      simp [DateTime.isoformat, hms, List.append_assoc]
    rw [hshape]
    exact fixFraction_no_dot _ ':' _ (pad2_digits d.second) (by decide) (by decide)
  · have hshape : (DateTime.isoformat d).data =
        (pad4 d.year ++ '-' :: pad2 d.month ++ '-' :: pad2 d.day ++ 'T' :: pad2 d.hour
          ++ ':' :: pad2 d.minute ++ ':' :: pad2 d.second) ++ '.' :: pad6 d.microsecond
          ++ utcSuffix := by
      simp [DateTime.isoformat, hms, List.append_assoc]
    rw [hshape]
    refine fixFraction_frac6 _ _ (pad6_digits d.microsecond) (by simp [pad6]) ?_
    simp [pad4]

theorem parseIso_isoformat (d : DateTime) (hv : d.isValid) :
    parseIsoDateTime (DateTime.isoformat d).data = some d := by
  obtain ⟨y, mo, da, hr, mi, sec, us⟩ := d
  simp only [DateTime.isValid] at hv
  obtain ⟨h1, h2, h3, h4, h5, h6, h7, h8, h9, h10⟩ := hv
  have ey : (y / 1000 % 10) * 1000 + (y / 100 % 10) * 100 + (y / 10 % 10) * 10 + y % 10 = y := by
    omega
  have emo : (mo / 10 % 10) * 10 + mo % 10 = mo := by omega
  have eda : (da / 10 % 10) * 10 + da % 10 = da := by omega
  have ehr : (hr / 10 % 10) * 10 + hr % 10 = hr := by omega
  have emi : (mi / 10 % 10) * 10 + mi % 10 = mi := by omega
  have esec : (sec / 10 % 10) * 10 + sec % 10 = sec := by omega
  have eus : (us / 100000 % 10) * 100000 + (us / 10000 % 10) * 10000 + (us / 1000 % 10) * 1000 +
      (us / 100 % 10) * 100 + (us / 10 % 10) * 10 + us % 10 = us := by omega
  have pd : ∀ m : Nat, parseDigit (hexChar (m % 10)) = some (m % 10) := fun m =>
    parseDigit_hexChar _ (Nat.mod_lt _ (by omega))
  have hftz0 : parseFracTz ['+', '0', '0', ':', '0', '0'] = some 0 := by decide
  by_cases hms : us = 0
  · subst hms
    simp only [DateTime.isoformat, pad4, pad2, utcSuffix, ite_true, List.cons_append,
      List.nil_append, List.append_nil, if_pos rfl]
    simp only [parseIsoDateTime, pd, and_self, ite_true, hftz0]
    rw [ey, emo, eda, ehr, emi, esec]
    have hcond : 1 ≤ y ∧ 1 ≤ mo ∧ mo ≤ 12 ∧ 1 ≤ da ∧ da ≤ 31 ∧ hr ≤ 23 ∧ mi ≤ 59 ∧
        sec ≤ 59 := ⟨h1, h3, h4, h5, h6, h7, h8, h9⟩
    simp only [hcond, and_self, and_true, true_and, ite_true]
  · simp only [DateTime.isoformat, pad4, pad2, pad6, utcSuffix, if_neg hms, List.cons_append,
      List.nil_append, List.append_nil]
    simp only [parseIsoDateTime, parseFracTz, utcSuffix, pd, and_self, ite_true,
      eq_self_iff_true, or_true, reduceCtorEq, false_or]
    rw [ey, emo, eda, ehr, emi, esec, eus]
    have hcond : 1 ≤ y ∧ 1 ≤ mo ∧ mo ≤ 12 ∧ 1 ≤ da ∧ da ≤ 31 ∧ hr ≤ 23 ∧ mi ≤ 59 ∧
        sec ≤ 59 := ⟨h1, h3, h4, h5, h6, h7, h8, h9⟩
    simp only [hcond, and_self, and_true, true_and, ite_true]

theorem safe_parse_isoformat (d : DateTime) (hv : d.isValid) (now : DateTime) :
    safe_parse_datetime d.isoformat now = d := by
  have hne : ¬ (d.isoformat = "") := by
    simp [DateTime.isoformat, String.ext_iff, pad4]
  rw [safe_parse_datetime, if_neg hne, replaceZ_id _ (isoformat_no_Z d),
    fixFraction_isoformat, parseIso_isoformat d hv]

theorem decode_encode_cursor (d : DateTime) (task_id : String) (q status : Option String)
    (sort : String) (now : DateTime)
    (hd : d.isValid)
    (hid : '|' ∉ task_id.data)
    (hq : q = none ∨ ∃ s, q = some s ∧ s ≠ "" ∧ '|' ∉ s.data)
    (hst : status = none ∨ ∃ s, status = some s ∧ s ≠ "" ∧ '|' ∉ s.data)
    (hsort : '|' ∉ sort.data) :
    decode_cursor (encode_cursor d task_id q status sort) now =
      some (d, task_id, q, status, sort) := by
  have hb64 : b64Decode (encode_cursor d task_id q status sort).data =
      some (utf8Encode (cursorRaw d task_id q status sort)) := by
    exact b64_roundtrip _ (utf8Encode_lt_256 _)
  have hqe : '|' ∉ (pyOrEmpty q).data := by
    rcases hq with rfl | ⟨s, rfl, hne, hnp⟩
    · intro hc
      simp [pyOrEmpty] at hc
    · simp [pyOrEmpty, hne, hnp]
  have hste : '|' ∉ (pyOrEmpty status).data := by
    rcases hst with rfl | ⟨s, rfl, hne, hnp⟩
    · intro hc
      simp [pyOrEmpty] at hc
    · simp [pyOrEmpty, hne, hnp]
  have hsplit : splitPipe (cursorRaw d task_id q status sort) =
      [(DateTime.isoformat d).data, task_id.data, (pyOrEmpty q).data,
        (pyOrEmpty status).data, sort.data] := by
    have hassoc : cursorRaw d task_id q status sort =
        (DateTime.isoformat d).data ++ '|' :: (task_id.data ++ '|' ::
          ((pyOrEmpty q).data ++ '|' :: ((pyOrEmpty status).data ++ '|' :: sort.data))) := by
      simp [cursorRaw, List.append_assoc]
    rw [hassoc, splitPipe_append_pipe _ _ (isoformat_no_pipe d),
      splitPipe_append_pipe _ _ hid, splitPipe_append_pipe _ _ hqe,
      splitPipe_append_pipe _ _ hste, splitPipe_no_pipe _ hsort]
  rw [decode_cursor, hb64]
  simp only []
  rw [utf8_roundtrip]
  simp only []
  rw [hsplit]
  have hmkdata : ∀ s : String, String.mk s.data = s := fun s => rfl
  simp only [ite_true, List.getD_cons_zero, List.getD_cons_succ, hmkdata]
  rw [safe_parse_isoformat d hd now]
  rcases hq with rfl | ⟨sq, rfl, hneq, _⟩ <;>
    rcases hst with rfl | ⟨sst, rfl, hnest, _⟩
  · simp [pyOrEmpty]
  · simp [pyOrEmpty, hnest]
  · simp [pyOrEmpty, hneq]
  · simp [pyOrEmpty, hneq, hnest]

theorem cursor_check_mismatch (cursor : String) (q status : Option String) (sort : String)
    (now ct : DateTime) (cid : String) (cq cstatus : Option String) (csort : String)
    (hdec : decode_cursor cursor now = some (ct, cid, cq, cstatus, csort))
    (hdiff : pyOrEmpty cq ≠ pyOrEmpty (normalizeQ q) ∨
      pyOrEmpty cstatus ≠ pyOrEmpty status ∨ csort ≠ sort) :
    get_video_tasks_cursor_check cursor q status sort now =
      .error .cursorFilterMismatch := by
  rw [get_video_tasks_cursor_check, hdec]
  simp only []
  rw [if_pos hdiff]

set_option maxRecDepth 100000 in
example :
    decode_cursor (encode_cursor ⟨2025, 1, 1, 0, 0, 0, 0⟩ "a|b" none none "createdAt_desc")
      ⟨2020, 1, 1, 0, 0, 0, 0⟩ = none := by
  decide

/-! ### C7: cursor round trip and filter binding -/

set_option maxRecDepth 100000 in
/-- C7 counterexample.  The claim says the round trip returns exactly the
encoded tuple for *every* input, but the raw cursor string joins the fields
with `"|"` and `decode_cursor` splits on `"|"` again: a `task_id` containing
a pipe produces six parts and decoding returns `None` instead of the tuple
(the same happens for a pipe in `q`, `status` or `sort`, and `q = some ""`
decodes back to `none`). -/
theorem C7_counterexample :
    decode_cursor (encode_cursor ⟨2025, 1, 1, 0, 0, 0, 0⟩ "a|b" none none "createdAt_desc")
        ⟨2020, 1, 1, 0, 0, 0, 0⟩ = none ∧
    (none : Option (DateTime × String × Option String × Option String × String)) ≠
      some (⟨2025, 1, 1, 0, 0, 0, 0⟩, "a|b", none, none, "createdAt_desc") := by
  exact ⟨by decide, by decide⟩

/-- C7 (amended). For every tuple whose `task_id` and `sort` are pipe-free
and whose `q`/`status` are either absent or non-empty pipe-free strings
(and whose timestamp is a well-formed datetime),
`decode_cursor (encode_cursor t id q status sort)` returns exactly
`(t, id, q, status, sort)`; and a list request supplying a decodable cursor
whose embedded `q`, `status` or `sort` differs from the request's current
filters (after Python's `or ""` collapse of absent values) is answered with
`CURSOR_FILTER_MISMATCH` rather than results. -/
theorem C7_cursor_roundtrip_and_filter_guard :
    (∀ (d : DateTime) (task_id : String) (q status : Option String) (sort : String)
        (now : DateTime),
      d.isValid → '|' ∉ task_id.data →
      (q = none ∨ ∃ s, q = some s ∧ s ≠ "" ∧ '|' ∉ s.data) →
      (status = none ∨ ∃ s, status = some s ∧ s ≠ "" ∧ '|' ∉ s.data) →
      '|' ∉ sort.data →
      decode_cursor (encode_cursor d task_id q status sort) now =
        some (d, task_id, q, status, sort)) ∧
    (∀ (cursor : String) (q status : Option String) (sort : String) (now ct : DateTime)
        (cid : String) (cq cstatus : Option String) (csort : String),
      decode_cursor cursor now = some (ct, cid, cq, cstatus, csort) →
      (pyOrEmpty cq ≠ pyOrEmpty (normalizeQ q) ∨
        pyOrEmpty cstatus ≠ pyOrEmpty status ∨ csort ≠ sort) →
      get_video_tasks_cursor_check cursor q status sort now =
        .error .cursorFilterMismatch) :=
  ⟨fun d task_id q status sort now hd hid hq hst hsort =>
      decode_encode_cursor d task_id q status sort now hd hid hq hst hsort,
    fun cursor q status sort now ct cid cq cstatus csort hdec hdiff =>
      cursor_check_mismatch cursor q status sort now ct cid cq cstatus csort hdec hdiff⟩

set_option maxRecDepth 100000 in
/-- C7 witness: the round trip at a concrete tuple, and a concrete cursor
(encoded with `q = "test search"`) rejected when the request drops `q`. -/
theorem C7_witness :
    decode_cursor (encode_cursor ⟨2025, 12, 30, 10, 30, 45, 123456⟩ "vt_abc12345"
        (some "test search") (some "pending") "createdAt_asc") ⟨2020, 1, 1, 0, 0, 0, 0⟩ =
      some (⟨2025, 12, 30, 10, 30, 45, 123456⟩, "vt_abc12345",
        some "test search", some "pending", "createdAt_asc") ∧
    get_video_tasks_cursor_check
        (encode_cursor ⟨2025, 12, 30, 10, 30, 45, 123456⟩ "vt_abc12345"
          (some "test search") (some "pending") "createdAt_asc")
        none (some "pending") "createdAt_asc" ⟨2020, 1, 1, 0, 0, 0, 0⟩ =
      .error .cursorFilterMismatch :=
  ⟨C7_cursor_roundtrip_and_filter_guard.1 _ _ _ _ _ _ (by decide) (by decide)
      (Or.inr ⟨"test search", rfl, by decide, by decide⟩)
      (Or.inr ⟨"pending", rfl, by decide, by decide⟩) (by decide),
    C7_cursor_roundtrip_and_filter_guard.2 _ _ _ _ _ _ _ _ _ _
      (C7_cursor_roundtrip_and_filter_guard.1 _ _ _ _ _ _ (by decide) (by decide)
        (Or.inr ⟨"test search", rfl, by decide, by decide⟩)
        (Or.inr ⟨"pending", rfl, by decide, by decide⟩) (by decide))
      (Or.inl (by decide))⟩

end AiClipX

